import Mathlib

/-!
Shallow embedding of `datasette/facets.py` (faceted-aggregation engine).

External collaborators (the SQL executor `ds.execute`, the URL builders
`path_with_added_args` / `path_with_removed_args` / `absolute_url`, the
foreign-key label expander `expand_foreign_keys`, and `escape_sqlite`) are
modelled as parameters of an environment structure; the facet logic itself
(config resolution, suggestion loops, result shaping, error handling) is
translated statement by statement from the source.
-/

namespace Facets

/-- A SQLite value as seen by the Python code: TEXT, INTEGER or NULL.
(The claims under study never inspect REAL/BLOB values, but the embedding
keeps the value type abstract enough that rows are plain lists of these.) -/
inductive SVal where
  | s (v : String)
  | i (v : Int)
  | null
  deriving DecidableEq

/-- Python `str()` applied to a SQLite value, as used by
`str(row["value"])` in the source. -/
def pyStr : SVal → String
  | .s v => v
  | .i v => toString v
  | .null => "None"

/-- Python truthiness of a SQLite value (`if any(values)` in DateFacet). -/
def pyTruthy : SVal → Bool
  | .s v => v ≠ ""
  | .i v => v ≠ 0
  | .null => false

/-- The Python exceptions that the embedded code can raise or observe. -/
inductive PyErr where
  | typeError            -- e.g. `dict_items` object is not subscriptable
  | assertionError       -- failed `assert`
  | unboundLocalError    -- reading a local variable before assignment
  | keyError             -- `d[k]` with `k` missing
  | indexError           -- `l[0]` on an empty list
  | operationalError     -- `sqlite3.OperationalError` escaping a facet method
  deriving DecidableEq

/-- Outcome of one `ds.execute(...)` call: rows (each row a list of cells,
one per selected column), a `QueryInterrupted` timeout, or a
`sqlite3.OperationalError`-style failure. -/
inductive ExecResult where
  | ok (rows : List (List SVal))
  | interrupted
  | opError

/-- Symbolic model of the URL-construction collaborators: a path is the
request path with some key/value pairs added, or with some pairs removed. -/
inductive Path where
  | withAdded (pairs : List (String × SVal))
  | withRemoved (pairs : List (String × SVal))
  deriving DecidableEq

/-- A URL as stored in results: either a bare path
(`path_with_removed_args(...)`) or one wrapped by `ds.absolute_url`. -/
inductive UrlRef where
  | path (p : Path)
  | abs (p : Path)
  deriving DecidableEq

/-- A facet config dict, e.g. `{"simple": "genre"}` or `{"column": "genre"}`.
Modelled as an insertion-ordered association list (Python dict). -/
def Config := List (String × String)

instance : DecidableEq Config := by unfold Config; infer_instance

/-- One entry of `load_facet_configs` output:
`{"source": "metadata"|"request", "config": config}`. -/
structure SourcedConfig where
  source : String
  config : Config
  deriving DecidableEq

/-- One entry of the `facets` list in table metadata: either a bare column
name or a `{type: config}` dict.  The dict payloads are kept as strings:
every dict entry raises before its values are ever read (see
`metaPhase`), so their exact type is immaterial to the behaviour. -/
inductive MetaEntry where
  | mstr (s : String)
  | mdict (items : List (String × String))
  deriving DecidableEq

/-- `cs` begins with the pattern `ps` (character-wise). -/
def listStartsWith : List Char → List Char → Bool
  | _, [] => true
  | [], _ :: _ => false
  | c :: cs, p :: ps => c = p && listStartsWith cs ps

/-- Python `s.startswith(p)`, by code point.  (Defined over the character
lists so that it evaluates inside the kernel.) -/
def strStartsWith (s p : String) : Bool :=
  listStartsWith s.data p.data

/-- Python `s[n:]`, by code point. -/
def strDrop (s : String) (n : Nat) : String :=
  ⟨s.data.drop n⟩

/-- The accumulated `facet_configs` dict: type name to list of configs,
insertion-ordered. -/
def FacetConfigs := List (String × List SourcedConfig)

instance : DecidableEq FacetConfigs := by unfold FacetConfigs; infer_instance

/-- `facet_configs.setdefault(type, []).append(sc)`: append to the list of
an existing key (keeping its position) or add the key at the end. -/
def addConfig (m : FacetConfigs) (t : String) (sc : SourcedConfig) : FacetConfigs :=
  match m with
  | [] => [(t, [sc])]
  | (k, l) :: rest =>
    if k = t then (k, l ++ [sc]) :: rest else (k, l) :: addConfig rest t sc

/-- The metadata loop of `load_facet_configs` (facets.py lines 27-40).
Threads the Python local variable `type` (as `Option String`: `none` means
not yet assigned), because the query-string loop below can read it.
A bare string sets `type = "column"` and wraps the name as
`{"simple": name}`.  A dict entry first checks
`assert len(metadata_config.values()) == 1` (AssertionError when violated)
and then evaluates `metadata_config.items()[0]`, which on Python 3 raises
`TypeError: dict_items object is not subscriptable` unconditionally. -/
def metaPhase : List MetaEntry → Option String × FacetConfigs →
    Except PyErr (Option String × FacetConfigs)
  | [], st => .ok st
  | .mstr s :: rest, (_, m) =>
    metaPhase rest (some "column", addConfig m "column" ⟨"metadata", [("simple", s)]⟩)
  | .mdict items :: _, _ =>
    if items.length = 1 then .error .typeError else .error .assertionError

/-- The inner `for value in values` loop of `load_facet_configs`
(facets.py lines 49-57).  `jsonLoads` models `json.loads` for values that
start with a brace; other values become `{"simple": value}`.  Reading the
variable `type` while it is still unassigned raises `UnboundLocalError`
(the source has no `else` branch assigning `type` for keys such as
`"_facetx"`). -/
def qsValuesLoop (jsonLoads : String → Config) (t : Option String) :
    List String → FacetConfigs → Except PyErr FacetConfigs
  | [], m => .ok m
  | v :: vs, m =>
    let config := if strStartsWith v "\x7b" then jsonLoads v else [("simple", v)]
    match t with
    | none => .error .unboundLocalError
    | some ty => qsValuesLoop jsonLoads t vs (addConfig m ty ⟨"request", config⟩)

/-- The query-string loop of `load_facet_configs` (facets.py lines 42-57).
`qs` is `urllib.parse.parse_qs(request.query_string, keep_blank_values=True)`
as an insertion-ordered association list.  Keys starting with `"_facet"`
determine the facet type: `"_facet"` means `"column"`, a `"_facet_"` prefix
means the suffix; any other `"_facet..."` key leaves the `type` variable at
its previous value (or unassigned). -/
def qsLoop (jsonLoads : String → Config) :
    List (String × List String) → Option String × FacetConfigs →
    Except PyErr (Option String × FacetConfigs)
  | [], st => .ok st
  | (key, values) :: rest, (t, m) =>
    if strStartsWith key "_facet" then
      let t' : Option String :=
        if key = "_facet" then some "column"
        else if strStartsWith key "_facet_" then some (strDrop key 7)
        else t
      match qsValuesLoop jsonLoads t' values m with
      | .ok m' => qsLoop jsonLoads rest (t', m')
      | .error e => .error e
    else qsLoop jsonLoads rest (t, m)

/-- `load_facet_configs(request, table_metadata)` (facets.py lines 16-58):
metadata loop followed by query-string loop. -/
def loadFacetConfigs (jsonLoads : String → Config) (metadataFacets : List MetaEntry)
    (qs : List (String × List String)) : Except PyErr FacetConfigs :=
  match metaPhase metadataFacets (none, []) with
  | .error e => .error e
  | .ok st =>
    match qsLoop jsonLoads qs st with
    | .error e => .error e
    | .ok (_, m) => .ok m

/-- A foreign-key edge as returned by `db.get_all_foreign_keys()`:
`{"other_table": ..., "column": ..., "other_column": ...}`. -/
structure FK where
  other_table : String
  column : String
  other_column : String
  deriving DecidableEq

/-- The per-table entry of `get_all_foreign_keys()`:
`{"incoming": [...], "outgoing": [...]}`. -/
structure TableFKs where
  incoming : List FK
  outgoing : List FK
  deriving DecidableEq

/-- The environment of one facet instance: the constructor arguments of
`Facet` together with the external collaborators.

* `sql`, `table`, `facetSize`, `rowCount`, `columns` — `self.sql`,
  `self.table`, `self.ds.config("default_facet_size")`,
  `await self.get_row_count()` and `await self.get_columns(...)` (the last
  two are themselves `ds.execute` calls; they are inputs here).
* `qsPairs` — `self.get_querystring_pairs()`.
* `configs` — `self.get_configs()` for the facet type under study.
* `exec` — `ds.execute` keyed by the SQL text (parameters and time budgets
  are fixed for one instance, so they are folded into the function).
* `escape` — the `escape_sqlite` collaborator.
* `expand` — the `(column, value) -> label` mapping that
  `ds.expand_foreign_keys` returns.
* `graph` — `db.get_all_foreign_keys()` as a dict. -/
structure FacetEnv where
  sql : String
  table : Option String
  facetSize : Nat
  rowCount : Nat
  columns : List String
  qsPairs : List (String × String)
  configs : List SourcedConfig
  exec : String → ExecResult
  escape : String → String
  expand : String → SVal → Option SVal
  graph : List (String × TableFKs)

/-- The `suggested_facet_sql` of `ColumnFacet.suggest`
(facets.py lines 145-152). -/
def columnProbeSql (env : FacetEnv) (column : String) : String :=
  "\n                select distinct " ++ env.escape column ++ " from (\n                    "
    ++ env.sql ++ "\n                ) where " ++ env.escape column
    ++ " is not null\n                limit " ++ toString (env.facetSize + 1)
    ++ "\n            "

/-- The `facet_sql` of `ColumnFacet.facet_results`
(facets.py lines 193-201). -/
def columnFacetSql (env : FacetEnv) (col : String) : String :=
  "\n                select " ++ env.escape col
    ++ " as value, count(*) as count from (\n                    " ++ env.sql
    ++ "\n                )\n                where " ++ env.escape col
    ++ " is not null\n                group by " ++ env.escape col
    ++ " order by count desc limit " ++ toString (env.facetSize + 1)
    ++ "\n            "

/-- The `suggested_facet_sql` of `ArrayFacet.suggest`
(facets.py lines 268-273). -/
def arrayProbeSql (env : FacetEnv) (column : String) : String :=
  "\n                select distinct json_type(" ++ env.escape column
    ++ ")\n                from (" ++ env.sql ++ ")\n            "

/-- The `suggested_facet_sql` of `DateFacet.suggest`
(facets.py lines 379-385). -/
def dateProbeSql (env : FacetEnv) (column : String) : String :=
  "\n                select date(" ++ env.escape column
    ++ ") from (\n                    " ++ env.sql ++ "\n                ) where "
    ++ env.escape column ++ " glob \"????-??-*\" limit 100;\n            "

/-- A suggested facet `{"name": ..., ("type": ...,) "toggle_url": ...}`;
`ColumnFacet.suggest` emits no `"type"` key, the other strategies do. -/
structure Suggestion where
  name : String
  stype : Option String
  toggleUrl : UrlRef
  deriving DecidableEq

/-- `d.get(k)` on an insertion-ordered dict. -/
def alookup {α : Type} : List (String × α) → String → Option α
  | [], _ => none
  | (k, v) :: rest, key => if key = k then some v else alookup rest key

/-- `already_enabled = [c["config"]["simple"] for c in self.get_configs()]`
(facets.py line 141): a config without a `"simple"` key raises `KeyError`. -/
def alreadyEnabled (configs : List SourcedConfig) : Except PyErr (List String) :=
  match configs with
  | [] => .ok []
  | c :: rest =>
    match alookup c.config "simple" with
    | none => .error .keyError
    | some v =>
      match alreadyEnabled rest with
      | .ok l => .ok (v :: l)
      | .error e => .error e

/-- The per-column loop of `ColumnFacet.suggest` (facets.py lines 142-179):
skip already-enabled columns, probe the rest; `QueryInterrupted` is caught
(`continue`), any other query error propagates; a successful probe suggests
the column iff `num_distinct_values and num_distinct_values > 1 and
num_distinct_values <= facet_size and num_distinct_values < row_count`. -/
def columnSuggestLoop (env : FacetEnv) (already : List String) :
    List String → Except PyErr (List Suggestion)
  | [] => .ok []
  | col :: rest =>
    if col ∈ already then columnSuggestLoop env already rest
    else
      match env.exec (columnProbeSql env col) with
      | .interrupted => columnSuggestLoop env already rest
      | .opError => .error .operationalError
      | .ok rows =>
        if rows.length ≠ 0 ∧ 1 < rows.length ∧ rows.length ≤ env.facetSize ∧
            rows.length < env.rowCount then
          match columnSuggestLoop env already rest with
          | .ok l =>
            .ok ({ name := col, stype := none,
                   toggleUrl := .abs (.withAdded [("_facet", .s col)]) } :: l)
          | .error e => .error e
        else columnSuggestLoop env already rest

/-- `ColumnFacet.suggest` (facets.py lines 136-180). -/
def columnSuggest (env : FacetEnv) : Except PyErr (List Suggestion) :=
  match alreadyEnabled env.configs with
  | .error e => .error e
  | .ok already => columnSuggestLoop env already env.columns

/-- One row of a facet result, `{"value": ..., "label": ..., "count": ...,
"toggle_url": ..., "selected": ...}` (facets.py lines 240-250). -/
structure Entry where
  value : SVal
  label : SVal
  count : SVal
  toggleUrl : UrlRef
  selected : Bool
  deriving DecidableEq

/-- The result dict for one facet (facets.py lines 211-220). -/
structure FacetInfo where
  name : String
  ftype : String
  hideable : Bool
  toggleUrl : UrlRef
  results : List Entry
  truncated : Bool
  deriving DecidableEq

/-- `column = config.get("column") or config["simple"]`
(facets.py line 192): a present-but-falsy `"column"` value falls through to
`config["simple"]`, whose absence raises `KeyError`. -/
def resolveColumn (config : Config) : Except PyErr String :=
  match alookup config "column" with
  | some v => if v ≠ "" then .ok v else
      match alookup config "simple" with
      | some w => .ok w
      | none => .error .keyError
  | none =>
      match alookup config "simple" with
      | some w => .ok w
      | none => .error .keyError

/-- The per-row entry construction of `ColumnFacet.facet_results`
(facets.py lines 222-250): `row["value"]` is the first cell and
`row["count"]` the second (the generated query selects exactly these two
columns, in this order); foreign-key labels are looked up only for
table-backed facets; `selected` compares `(column, str(value))` against
the query-string pairs, and the toggle path removes the stringified pair
when selected or adds the raw pair when not. -/
def columnEntry (env : FacetEnv) (column : String) (row : List SVal) : Entry :=
  let v := row.getD 0 SVal.null
  let cnt := row.getD 1 SVal.null
  let selected := (column, pyStr v) ∈ env.qsPairs
  let toggle : Path :=
    if selected then .withRemoved [(column, .s (pyStr v))]
    else .withAdded [(column, v)]
  let label :=
    match env.table with
    | some _ => (env.expand column v).getD v
    | none => v
  { value := v, label := label, count := cnt,
    toggleUrl := .abs toggle, selected := decide selected }

/-- The result dict built for one successfully queried column
(facets.py lines 210-250). -/
def mkColumnInfo (env : FacetEnv) (source column : String)
    (rows : List (List SVal)) : FacetInfo :=
  { name := column
    ftype := "column"
    hideable := decide (source ≠ "metadata")
    toggleUrl := .path (.withRemoved [("_facet", .s column)])
    results := (rows.take env.facetSize).map (columnEntry env column)
    truncated := decide (rows.length > env.facetSize) }

/-- `facet_results[column] = info`: Python dict assignment (overwrite in
place, or append a new key at the end). -/
def dictAssign {α : Type} (m : List (String × α)) (k : String) (v : α) :
    List (String × α) :=
  match m with
  | [] => [(k, v)]
  | (k', v') :: rest =>
    if k' = k then (k', v) :: rest else (k', v') :: dictAssign rest k v

/-- The per-config loop of `ColumnFacet.facet_results`
(facets.py lines 189-253): resolve the column, run the facet query;
`QueryInterrupted` appends the column to `facets_timed_out` and moves on,
any other query error propagates; success stores the shaped result dict. -/
def columnFacetResultsLoop (env : FacetEnv) :
    List SourcedConfig → List (String × FacetInfo) → List String →
    Except PyErr (List (String × FacetInfo) × List String)
  | [], acc, timedOut => .ok (acc, timedOut)
  | sc :: rest, acc, timedOut =>
    match resolveColumn sc.config with
    | .error e => .error e
    | .ok column =>
      match env.exec (columnFacetSql env column) with
      | .interrupted => columnFacetResultsLoop env rest acc (timedOut ++ [column])
      | .opError => .error .operationalError
      | .ok rows =>
        columnFacetResultsLoop env rest
          (dictAssign acc column (mkColumnInfo env sc.source column rows)) timedOut

/-- `ColumnFacet.facet_results` (facets.py lines 182-254), returning the
`(facet_results, facets_timed_out)` pair. -/
def columnFacetResults (env : FacetEnv) :
    Except PyErr (List (String × FacetInfo) × List String) :=
  columnFacetResultsLoop env env.configs [] []

/-- What `ColumnFacet.suggest` emits for one column, as a partial map:
`none` when the column is skipped (already enabled, probe timed out, or the
distinct-count test fails), `some` suggestion otherwise.  (Columns whose
probe hits a non-timeout error abort the whole loop instead; the map is
only used to describe runs that returned normally.) -/
def columnSuggestFn (env : FacetEnv) (already : List String) (col : String) :
    Option Suggestion :=
  if col ∈ already then none
  else
    match env.exec (columnProbeSql env col) with
    | .interrupted => none
    | .opError => none
    | .ok rows =>
      if rows.length ≠ 0 ∧ 1 < rows.length ∧ rows.length ≤ env.facetSize ∧
          rows.length < env.rowCount then
        some { name := col, stype := none,
               toggleUrl := .abs (.withAdded [("_facet", .s col)]) }
      else none

/-- Scenario environment from the spec: table `books(id, genre)` with 10
rows and 3 distinct genres; no facet configured yet.  The executor answers
every query with the three distinct genres. -/
def envBooksSuggest : FacetEnv :=
  { sql := "select * from books", table := some "books", facetSize := 5,
    rowCount := 10, columns := ["genre"], qsPairs := [], configs := [],
    exec := fun _ => .ok [[.s "fiction"], [.s "bio"], [.s "poetry"]],
    escape := id, expand := fun _ _ => none, graph := [] }

/-- Same scenario with `_facet=genre` configured, the filter pair
`(genre, fiction)` active, and the executor answering the facet query with
the three count-descending rows. -/
def envBooksResults : FacetEnv :=
  { envBooksSuggest with
    configs := [⟨"request", [("simple", "genre")]⟩],
    qsPairs := [("genre", "fiction")],
    exec := fun _ => .ok [[.s "fiction", .i 5], [.s "bio", .i 3], [.s "poetry", .i 2]] }

/-- The suggestion that `ColumnFacet.suggest` emits for `genre`. -/
def suggGenre : Suggestion :=
  { name := "genre", stype := none,
    toggleUrl := .abs (.withAdded [("_facet", .s "genre")]) }

/-- The shaped result for the configured `genre` facet of
`envBooksResults`. -/
def infoGenre : FacetInfo :=
  mkColumnInfo envBooksResults "request" "genre"
    [[.s "fiction", .i 5], [.s "bio", .i 3], [.s "poetry", .i 2]]

/-- `_facet=genre` configured but the facet query fails with a non-timeout
`sqlite3.OperationalError`. -/
def envGenreOpError : FacetEnv :=
  { envBooksResults with exec := fun _ => .opError }

/-- `_facet=genre` configured but the facet query times out
(`QueryInterrupted`). -/
def envGenreInterrupted : FacetEnv :=
  { envBooksResults with exec := fun _ => .interrupted }

/-- The per-column loop of `ArrayFacet.suggest` (facets.py lines 264-298):
both `QueryInterrupted` and `sqlite3.OperationalError` are caught
(`continue`); a successful probe suggests the column iff the tuple of
`json_type` values, in row order, equals `("array",)` or
`("array", None)`. -/
def arraySuggestLoop (env : FacetEnv) (already : List String) :
    List String → List Suggestion
  | [] => []
  | col :: rest =>
    if col ∈ already then arraySuggestLoop env already rest
    else
      match env.exec (arrayProbeSql env col) with
      | .interrupted => arraySuggestLoop env already rest
      | .opError => arraySuggestLoop env already rest
      | .ok rows =>
        if rows.map (fun r => r.getD 0 SVal.null) = [SVal.s "array"] ∨
            rows.map (fun r => r.getD 0 SVal.null) = [SVal.s "array", SVal.null] then
          { name := col, stype := some "array",
            toggleUrl := .abs (.withAdded [("_facet_array", .s col)]) } ::
              arraySuggestLoop env already rest
        else arraySuggestLoop env already rest

/-- `ArrayFacet.suggest` (facets.py lines 260-299). -/
def arraySuggest (env : FacetEnv) : Except PyErr (List Suggestion) :=
  match alreadyEnabled env.configs with
  | .error e => .error e
  | .ok already => .ok (arraySuggestLoop env already env.columns)

/-- What `ArrayFacet.suggest` emits for one column, as a partial map. -/
def arraySuggestFn (env : FacetEnv) (already : List String) (col : String) :
    Option Suggestion :=
  if col ∈ already then none
  else
    match env.exec (arrayProbeSql env col) with
    | .interrupted => none
    | .opError => none
    | .ok rows =>
      if rows.map (fun r => r.getD 0 SVal.null) = [SVal.s "array"] ∨
          rows.map (fun r => r.getD 0 SVal.null) = [SVal.s "array", SVal.null] then
        some { name := col, stype := some "array",
               toggleUrl := .abs (.withAdded [("_facet_array", .s col)]) }
      else none

/-- The per-column loop of `DateFacet.suggest` (facets.py lines 375-411):
both `QueryInterrupted` and `sqlite3.OperationalError` are caught; a
successful probe suggests the column iff any sampled `date(...)` value is
truthy. -/
def dateSuggestLoop (env : FacetEnv) (already : List String) :
    List String → List Suggestion
  | [] => []
  | col :: rest =>
    if col ∈ already then dateSuggestLoop env already rest
    else
      match env.exec (dateProbeSql env col) with
      | .interrupted => dateSuggestLoop env already rest
      | .opError => dateSuggestLoop env already rest
      | .ok rows =>
        if (rows.map (fun r => r.getD 0 SVal.null)).any pyTruthy then
          { name := col, stype := some "date",
            toggleUrl := .abs (.withAdded [("_facet_date", .s col)]) } ::
              dateSuggestLoop env already rest
        else dateSuggestLoop env already rest

/-- `DateFacet.suggest` (facets.py lines 371-411). -/
def dateSuggest (env : FacetEnv) : Except PyErr (List Suggestion) :=
  match alreadyEnabled env.configs with
  | .error e => .error e
  | .ok already => .ok (dateSuggestLoop env already env.columns)

/-- The suggestion that `ColumnFacet.suggest` emits for column `b`. -/
def suggB : Suggestion :=
  { name := "b", stype := none,
    toggleUrl := .abs (.withAdded [("_facet", .s "b")]) }

/-- The suggestion that `ArrayFacet.suggest` emits for column `tags`. -/
def suggTags : Suggestion :=
  { name := "tags", stype := some "array",
    toggleUrl := .abs (.withAdded [("_facet_array", .s "tags")]) }

/-- A two-column base query with no configured facets; the stock executor
times everything out (individual tests override `exec`). -/
def envTwoColsBase : FacetEnv :=
  { sql := "select * from t", table := none, facetSize := 5, rowCount := 10,
    columns := ["a", "b"], qsPairs := [], configs := [],
    exec := fun _ => .interrupted, escape := id, expand := fun _ _ => none,
    graph := [] }

/-- Column `a`'s suggestion probe hits a non-timeout error; column `b`'s
succeeds with two distinct values. -/
def envColSuggestOpError : FacetEnv :=
  { envTwoColsBase with
    exec := fun q =>
      if q = columnProbeSql envTwoColsBase "a" then .opError
      else .ok [[.s "x"], [.s "y"]] }

/-- Same as `envColSuggestOpError` but column `a`'s probe times out
instead. -/
def envColSuggestTimeout : FacetEnv :=
  { envTwoColsBase with
    exec := fun q =>
      if q = columnProbeSql envTwoColsBase "a" then .interrupted
      else .ok [[.s "x"], [.s "y"]] }

/-- Every query fails with a non-timeout `sqlite3.OperationalError`. -/
def envProbeOpError : FacetEnv :=
  { envTwoColsBase with exec := fun _ => .opError }

/-- A single JSON column whose `select distinct json_type(...)` probe
returns the kinds in the order `(None, "array")`: as a set these are
exactly `{array, null}`. -/
def envKindsSwapped : FacetEnv :=
  { envTwoColsBase with
    columns := ["tags"],
    exec := fun _ => .ok [[SVal.null], [SVal.s "array"]] }

/-- The same column with the kinds in the order `("array", None)`. -/
def envKindsProper : FacetEnv :=
  { envTwoColsBase with
    columns := ["tags"],
    exec := fun _ => .ok [[SVal.s "array"], [SVal.null]] }

/-- The per-incoming-edge loop of `ManyToManyFacet.suggest`
(facets.py lines 496-522).  For each table with an incoming foreign key to
the base table: look up its outgoing keys (`all_foreign_keys[other_table]`
raises `KeyError` when absent); if there are exactly two, take the first
whose target differs from the base table (`[...][0]` raises `IndexError`
when both target the base table), skip it when
`("_facet_m2m", destination)` is already in the filter state, and
otherwise suggest it. -/
def m2mSuggestLoop (env : FacetEnv) (table : String) :
    List FK → Except PyErr (List Suggestion)
  | [] => .ok []
  | fk :: rest =>
    match alookup env.graph fk.other_table with
    | none => .error .keyError
    | some o =>
      if o.outgoing.length = 2 then
        match o.outgoing.filter (fun e => decide (e.other_table ≠ table)) with
        | [] => .error .indexError
        | d :: _ =>
          if ("_facet_m2m", d.other_table) ∈ env.qsPairs then
            m2mSuggestLoop env table rest
          else
            match m2mSuggestLoop env table rest with
            | .ok l =>
              .ok ({ name := d.other_table, stype := some "m2m",
                     toggleUrl := .abs (.withAdded
                       [("_facet_m2m", .s d.other_table)]) } :: l)
            | .error e => .error e
      else m2mSuggestLoop env table rest

/-- `ManyToManyFacet.suggest` (facets.py lines 484-522): a base query with
no table, or a table absent from `get_all_foreign_keys()`, yields no
suggestions (`It's probably a view`). -/
def m2mSuggest (env : FacetEnv) : Except PyErr (List Suggestion) :=
  match env.table with
  | none => .ok []
  | some table =>
    match alookup env.graph table with
    | none => .ok []
    | some tf => m2mSuggestLoop env table tf.incoming

/-- Claim C7's description of the suggestions, written from its words: for
every incoming edge whose source table has exactly two outgoing edges, one
of which targets the base table, the other edge's target is suggested as a
many-to-many destination unless `("_facet_m2m", destination)` is already in
the filter state; tables without exactly two outgoing edges are skipped. -/
def m2mSuggestClaim (env : FacetEnv) (table : String) (incoming : List FK) :
    List Suggestion :=
  incoming.filterMap (fun fk =>
    match alookup env.graph fk.other_table with
    | none => none
    | some o =>
      match o.outgoing with
      | [e1, e2] =>
        if e1.other_table = table ∧ e2.other_table ≠ table then
          if ("_facet_m2m", e2.other_table) ∈ env.qsPairs then none
          else some { name := e2.other_table, stype := some "m2m",
                      toggleUrl := .abs (.withAdded
                        [("_facet_m2m", .s e2.other_table)]) }
        else if e2.other_table = table ∧ e1.other_table ≠ table then
          if ("_facet_m2m", e1.other_table) ∈ env.qsPairs then none
          else some { name := e1.other_table, stype := some "m2m",
                      toggleUrl := .abs (.withAdded
                        [("_facet_m2m", .s e1.other_table)]) }
        else none
      | _ => none)

/-- The spec's junction scenario: `book_tags(book_id -> books.id,
tag_id -> tags.id)` with no third foreign key. -/
def tagsGraph : List (String × TableFKs) :=
  [("books", ⟨[⟨"book_tags", "book_id", "id"⟩], []⟩),
   ("book_tags", ⟨[], [⟨"books", "book_id", "id"⟩, ⟨"tags", "tag_id", "id"⟩]⟩),
   ("tags", ⟨[⟨"book_tags", "tag_id", "id"⟩], []⟩)]

/-- The base table `books` of the junction scenario. -/
def envM2MBooks : FacetEnv :=
  { envTwoColsBase with table := some "books", graph := tagsGraph }

/-- One hexadecimal digit, lowercase (as Python `%04x` produces). -/
def hexDigitChar (n : Nat) : Char :=
  Char.ofNat (if n < 10 then 48 + n else 87 + n)

/-- The four hex digits of `n < 0x10000`, most significant first. -/
def hex4 (n : Nat) : List Char :=
  [hexDigitChar (n / 4096 % 16), hexDigitChar (n / 256 % 16),
   hexDigitChar (n / 16 % 16), hexDigitChar (n % 16)]

/-- Python `json.dumps` escaping of one character under the default
`ensure_ascii=True` (`py_encode_basestring_ascii`): `"` and `\` and the
five control shorthands get two-character escapes, other characters
outside `0x20..0x7e` become `\uXXXX` (a surrogate pair for code points
above `0xFFFF`), everything else is emitted verbatim. -/
def escapeChar (c : Char) : List Char :=
  if c = '"' then ['\\', '"']
  else if c = '\\' then ['\\', '\\']
  else if c = '\n' then ['\\', 'n']
  else if c = '\r' then ['\\', 'r']
  else if c = '\t' then ['\\', 't']
  else if c = '\x08' then ['\\', 'b']
  else if c = '\x0c' then ['\\', 'f']
  else if 0x20 ≤ c.toNat ∧ c.toNat ≤ 0x7e then [c]
  else if c.toNat < 0x10000 then '\\' :: 'u' :: hex4 c.toNat
  else ('\\' :: 'u' :: hex4 (0xd800 + (c.toNat - 0x10000) / 0x400)) ++
       ('\\' :: 'u' :: hex4 (0xdc00 + (c.toNat - 0x10000) % 0x400))

/-- `json.dumps` escaping of a whole string body. -/
def escapeStr : List Char → List Char
  | [] => []
  | c :: cs => escapeChar c ++ escapeStr cs

/-- The `_through` token of `ManyToManyFacet.facet_results`
(facets.py lines 631-639): `json.dumps({"table": ..., "column": ...,
"value": str(...)}, separators=(",", ":"), sort_keys=True)`.  With the keys
sorted (`column` < `table` < `value`) and those separators the output is
exactly `{"column":<c>,"table":<t>,"value":<v>}` with each component a
JSON string literal and no whitespace. -/
def serializeThrough (table column value : String) : String :=
  ⟨"\x7b\"column\":\"".data ++ (escapeStr column.data ++ ('"' ::
    (",\"table\":\"".data ++ (escapeStr table.data ++ ('"' ::
    (",\"value\":\"".data ++ (escapeStr value.data ++ ('"' ::
    ['\x7d']))))))))⟩

/-- The numeric value of one hex digit (either case), as a JSON parser
accepts. -/
def hexVal (c : Char) : Option Nat :=
  if '0' ≤ c ∧ c ≤ '9' then some (c.toNat - 48)
  else if 'a' ≤ c ∧ c ≤ 'f' then some (c.toNat - 87)
  else if 'A' ≤ c ∧ c ≤ 'F' then some (c.toNat - 55)
  else none

/-- Four hex digits, most significant first. -/
def hex4Val (a b c d : Char) : Option Nat :=
  match hexVal a, hexVal b, hexVal c, hexVal d with
  | some x, some y, some z, some w => some (((x * 16 + y) * 16 + z) * 16 + w)
  | _, _, _, _ => none

/-- The single-character JSON escapes. -/
def simpleUnescape (c : Char) : Option Char :=
  if c = '"' then some '"'
  else if c = '\\' then some '\\'
  else if c = '/' then some '/'
  else if c = 'n' then some '\n'
  else if c = 'r' then some '\r'
  else if c = 't' then some '\t'
  else if c = 'b' then some '\x08'
  else if c = 'f' then some '\x0c'
  else none

/-- Decode the escape sequences of a JSON string body (the part between
the quotes), recombining surrogate pairs, as `json.loads` does.  The fuel
argument, always instantiated with the input length (see `decodeEsc`),
makes the recursion structural; one unit of fuel is spent per decoded
character, and each decoded character consumes at least one input
character, so the fuel never runs out on real inputs. -/
def decodeEscF : Nat → List Char → Option (List Char)
  | _, [] => some []
  | 0, _ :: _ => none
  | fuel + 1, c :: rest =>
    if c = '\\' then
      match rest with
      | [] => none
      | k :: rest1 =>
        if k = 'u' then
          match rest1 with
          | a :: b :: c2 :: d :: rest2 =>
            match hex4Val a b c2 d with
            | none => none
            | some n =>
              if n < 0xd800 ∨ 0xdfff < n then
                (decodeEscF fuel rest2).map (fun l => Char.ofNat n :: l)
              else if n ≤ 0xdbff then
                match rest2 with
                | '\\' :: 'u' :: e :: f :: g :: h :: rest3 =>
                  match hex4Val e f g h with
                  | none => none
                  | some m =>
                    if 0xdc00 ≤ m ∧ m ≤ 0xdfff then
                      (decodeEscF fuel rest3).map (fun l =>
                        Char.ofNat (0x10000 + (n - 0xd800) * 0x400 +
                          (m - 0xdc00)) :: l)
                    else none
                | _ => none
              else none
          | _ => none
        else
          match simpleUnescape k with
          | none => none
          | some u => (decodeEscF fuel rest1).map (fun l => u :: l)
    else (decodeEscF fuel rest).map (fun l => c :: l)

def decodeEsc (l : List Char) : Option (List Char) :=
  decodeEscF l.length l

/-- Scan a JSON string body up to its closing quote, leaving escape
sequences in place; returns the body and the input after the quote. -/
def splitJsonStr : List Char → Option (List Char × List Char)
  | [] => none
  | c :: rest =>
    if c = '"' then some ([], rest)
    else if c = '\\' then
      match rest with
      | [] => none
      | k :: rest1 =>
        match splitJsonStr rest1 with
        | none => none
        | some (content, remain) => some (c :: k :: content, remain)
    else
      match splitJsonStr rest with
      | none => none
      | some (content, remain) => some (c :: content, remain)

/-- Read one JSON string value (after its opening quote): scan to the
closing quote and decode the escapes. -/
def readJsonStr (l : List Char) : Option (List Char × List Char) :=
  match splitJsonStr l with
  | none => none
  | some (content, remain) =>
    match decodeEsc content with
    | none => none
    | some s => some (s, remain)

/-- Match an exact literal, returning the rest of the input. -/
def expects : List Char → List Char → Option (List Char)
  | [], l => some l
  | _ :: _, [] => none
  | p :: ps, c :: cs => if c = p then expects ps cs else none

/-- Parse a `_through` token back into its `(table, column, value)`
triple, mirroring what `json.loads` recovers from the serialized form. -/
def parseThrough (s : String) : Option (String × String × String) :=
  match expects "\x7b\"column\":\"".data s.data with
  | none => none
  | some r0 =>
    match readJsonStr r0 with
    | none => none
    | some (col, r1) =>
      match expects ",\"table\":\"".data r1 with
      | none => none
      | some r2 =>
        match readJsonStr r2 with
        | none => none
        | some (tab, r3) =>
          match expects ",\"value\":\"".data r3 with
          | none => none
          | some r4 =>
            match readJsonStr r4 with
            | none => none
            | some (v, r5) =>
              if r5 = ['\x7d'] then some (⟨tab⟩, ⟨col⟩, ⟨v⟩) else none

/-- The middle-table search of `ManyToManyFacet.facet_results`
(facets.py lines 541-558): scan the incoming edges for the first table
whose outgoing keys include one to the destination table and number
exactly two (`all_foreign_keys[other_table]` raises `KeyError` when the
table is missing from the graph); `break` on the first hit. -/
def m2mFindMiddle (env : FacetEnv) (dest : String) :
    List FK → Except PyErr (Option (String × List FK))
  | [] => .ok none
  | fk :: rest =>
    match alookup env.graph fk.other_table with
    | none => .error .keyError
    | some o =>
      if (∃ e ∈ o.outgoing, e.other_table = dest) ∧ o.outgoing.length = 2 then
        .ok (some (fk.other_table, o.outgoing))
      else m2mFindMiddle env dest rest

/-- The column-discovery loop of `ManyToManyFacet.facet_results`
(facets.py lines 575-583), threading
`(column_to_table, table_pk, column_to_destination)` as they are
assigned. -/
def m2mCols (table dest : String) :
    List FK → Option String × Option String × Option String →
    Option String × Option String × Option String
  | [], acc => acc
  | fk :: rest, (ctt, tpk, ctd) =>
    if fk.other_table = table then
      m2mCols table dest rest (some fk.column, some fk.other_column, ctd)
    else if fk.other_table = dest then
      m2mCols table dest rest (ctt, tpk, some fk.column)
    else m2mCols table dest rest (ctt, tpk, ctd)

/-- The `facet_sql` of `ManyToManyFacet.facet_results`
(facets.py lines 585-602). -/
def m2mFacetSql (env : FacetEnv) (middle ctd ctt tpk : String) : String :=
  "\n                select\n                    " ++ env.escape middle ++ "."
    ++ env.escape ctd ++ " as value,\n                    count(distinct "
    ++ env.escape middle ++ "." ++ env.escape ctt
    ++ ") as count\n                from " ++ env.escape middle
    ++ "\n                where " ++ env.escape middle ++ "." ++ env.escape ctt
    ++ " in (\n                    select " ++ env.escape tpk ++ " from ("
    ++ env.sql ++ ")\n                )\n                group by "
    ++ env.escape middle ++ "." ++ env.escape ctd
    ++ "\n                order by count desc limit "
    ++ toString (env.facetSize + 1) ++ "\n            "

/-- The per-row entry construction of `ManyToManyFacet.facet_results`
(facets.py lines 630-661): the `_through` token is the deterministic
serialization of `{"table": middle, "column": column_to_destination,
"value": str(value)}`; selection compares `("_through", token)` against the
query-string pairs, and the toggle adds or removes that pair.  Labels come
from `expand_foreign_keys(..., middle_table, column_to_destination, ...)`,
looked up under `(column_to_destination, value)` (the mapping itself is the
external `env.expand`). -/
def m2mEntry (env : FacetEnv) (middle ctd : String) (row : List SVal) : Entry :=
  let v := row.getD 0 SVal.null
  let cnt := row.getD 1 SVal.null
  let through := serializeThrough middle ctd (pyStr v)
  let selected := ("_through", through) ∈ env.qsPairs
  let toggle : Path :=
    if selected then .withRemoved [("_through", .s through)]
    else .withAdded [("_through", .s through)]
  { value := v, label := (env.expand ctd v).getD v, count := cnt,
    toggleUrl := .abs toggle, selected := decide selected }

/-- The result dict built for one successfully queried destination table
(facets.py lines 611-621). -/
def mkM2MInfo (env : FacetEnv) (source dest middle ctd : String)
    (rows : List (List SVal)) : FacetInfo :=
  { name := dest
    ftype := "m2m"
    hideable := decide (source ≠ "metadata")
    toggleUrl := .path (.withRemoved [("_facet_m2m", .s dest)])
    results := (rows.take env.facetSize).map (m2mEntry env middle ctd)
    truncated := decide (rows.length > env.facetSize) }

/-- The per-config loop of `ManyToManyFacet.facet_results`
(facets.py lines 535-663): resolve the destination table, re-derive the
middle table (no middle table means `return [], []`, abandoning any
results gathered so far), identify the three relevant columns (`assert
all(...)` raises `AssertionError` when any is unassigned or empty), and
run the aggregation query; `QueryInterrupted` appends the destination to
`facets_timed_out` and moves on, any other query error propagates. -/
def m2mFacetResultsLoop (env : FacetEnv) (incoming : List FK) (table : String) :
    List SourcedConfig → List (String × FacetInfo) → List String →
    Except PyErr (List (String × FacetInfo) × List String)
  | [], acc, timedOut => .ok (acc, timedOut)
  | sc :: rest, acc, timedOut =>
    match resolveColumn sc.config with
    | .error e => .error e
    | .ok dest =>
      match m2mFindMiddle env dest incoming with
      | .error e => .error e
      | .ok none => .ok ([], [])
      | .ok (some (middle, fks)) =>
        match m2mCols table dest fks (none, none, none) with
        | (some ctt, some tpk, some ctd) =>
          if ctt ≠ "" ∧ tpk ≠ "" ∧ ctd ≠ "" then
            match env.exec (m2mFacetSql env middle ctd ctt tpk) with
            | .interrupted =>
              m2mFacetResultsLoop env incoming table rest acc (timedOut ++ [dest])
            | .opError => .error .operationalError
            | .ok rows =>
              m2mFacetResultsLoop env incoming table rest
                (dictAssign acc dest (mkM2MInfo env sc.source dest middle ctd rows))
                timedOut
          else .error .assertionError
        | _ => .error .assertionError

/-- `ManyToManyFacet.facet_results` (facets.py lines 524-665): a base
query with no table, or a table absent from `get_all_foreign_keys()`,
returns `([], [])`. -/
def m2mFacetResults (env : FacetEnv) :
    Except PyErr (List (String × FacetInfo) × List String) :=
  match env.table with
  | none => .ok ([], [])
  | some table =>
    match alookup env.graph table with
    | none => .ok ([], [])
    | some tf => m2mFacetResultsLoop env tf.incoming table env.configs [] []

/-- The junction scenario with `_facet_m2m=tags` configured and the
aggregation query failing with a non-timeout error. -/
def envM2MTagsOpError : FacetEnv :=
  { envM2MBooks with
    configs := [⟨"request", [("simple", "tags")]⟩],
    exec := fun _ => .opError }

/-- The junction scenario with `_facet_m2m=tags` configured and the
aggregation query timing out. -/
def envM2MTagsInterrupted : FacetEnv :=
  { envM2MBooks with
    configs := [⟨"request", [("simple", "tags")]⟩],
    exec := fun _ => .interrupted }

/-- Query-string keys that do not start with `"_facet"` are skipped by the
loop without touching the `type` variable or the accumulated configs. -/
theorem qsLoop_skips (jl : String → Config) (pre rest : List (String × List String))
    (st : Option String × FacetConfigs)
    (hpre : ∀ p ∈ pre, strStartsWith p.1 "_facet" = false) :
    qsLoop jl (pre ++ rest) st = qsLoop jl rest st := by
  induction pre with
  | nil => rfl
  | cons p pre ih =>
    obtain ⟨t, m⟩ := st
    have hp := hpre p (by simp)
    simp only [List.cons_append, qsLoop, hp, Bool.false_eq_true, if_false]
    exact ih fun q hq => hpre q (by simp [hq])

/-- C6: On the failing input `facets: [{"array": "tags"}]` — a well-formed
single-key `{type: config}` metadata entry — `load_facet_configs` raises
`TypeError` (on Python 3 `metadata_config.items()[0]` subscripts a
`dict_items` view), instead of producing the `origin=Metadata` config the
claim (and the surrounding code's intent, per its own assert message
`"Metadata config dicts should be {type: config}"`) describes.  Bare-string
entries do produce `origin="metadata"` configs, and a multi-key dict fails
the assert. -/
theorem c6_structured_metadata_entry_raises_type_error :
    loadFacetConfigs (fun _ => []) [MetaEntry.mdict [("array", "tags")]] [] =
      Except.error PyErr.typeError ∧
    loadFacetConfigs (fun _ => []) [MetaEntry.mstr "title"] [] =
      Except.ok [("column", [⟨"metadata", [("simple", "title")]⟩])] ∧
    loadFacetConfigs (fun _ => []) [MetaEntry.mdict [("a", "x"), ("b", "y")]] [] =
      Except.error PyErr.assertionError :=
  ⟨rfl, rfl, rfl⟩

/-- C10: A query-string key that starts with `"_facet"` but is neither
`"_facet"` nor `"_facet_"`-prefixed (e.g. `"_facetx"`) never gets a facet
type of its own.  If it is the first `"_facet"`-prefixed key processed (and
the metadata assigned no type), `load_facet_configs` hits the unassigned
local `type` and raises `UnboundLocalError`; if a previous key left
`type = T`, the configs of the unrecognized key are filed under `T`. -/
theorem c10_unrecognized_facet_key_type_reuse (jl : String → Config)
    (pre : List (String × List String)) (k v : String) (vs : List String)
    (post : List (String × List String))
    (hpre : ∀ p ∈ pre, strStartsWith p.1 "_facet" = false)
    (hk : strStartsWith k "_facet" = true) (hk1 : k ≠ "_facet")
    (hk2 : strStartsWith k "_facet_" = false) :
    loadFacetConfigs jl [] (pre ++ (k, v :: vs) :: post) =
      Except.error PyErr.unboundLocalError ∧
    ∀ (T : String) (m : FacetConfigs), strStartsWith v "\x7b" = false →
      qsLoop jl [(k, [v])] (some T, m) =
        Except.ok (some T, addConfig m T ⟨"request", [("simple", v)]⟩) := by
  constructor
  · show (match qsLoop jl (pre ++ (k, v :: vs) :: post) (none, []) with
      | .error e => Except.error e
      | .ok (_, m) => Except.ok m) = Except.error PyErr.unboundLocalError
    rw [qsLoop_skips jl pre _ _ hpre]
    simp only [qsLoop, hk, if_true, hk1, if_false, hk2, Bool.false_eq_true,
      qsValuesLoop]
  · intro T m hv
    simp only [qsLoop, hk, if_true, hk1, if_false, hk2, Bool.false_eq_true,
      qsValuesLoop, hv]

/-- Witness for C10 at `?id=1&_facetx=b` with empty metadata, and at the
same key when a previous `_facet=a` set the type to `"column"`. -/
theorem c10_witness :
    loadFacetConfigs (fun _ => []) [] [("id", ["1"]), ("_facetx", ["b"])] =
      Except.error PyErr.unboundLocalError ∧
    qsLoop (fun _ => []) [("_facetx", ["b"])] (some "column", []) =
      Except.ok (some "column", [("column", [⟨"request", [("simple", "b")]⟩])]) := by
  have h := c10_unrecognized_facet_key_type_reuse (fun _ => [])
    [("id", ["1"])] "_facetx" "b" [] []
    (by intro p hp; simp at hp; simp [hp]; decide) (by decide) (by decide) (by decide)
  exact ⟨h.1, h.2 "column" [] (by decide)⟩

/-- `columnSuggestFn` yields a suggestion exactly for unconfigured columns
whose probe succeeded and passed the four-part distinct-count test. -/
theorem columnSuggestFn_eq_some (env : FacetEnv) (already : List String)
    (col : String) (e : Suggestion) :
    columnSuggestFn env already col = some e ↔
      col ∉ already ∧
      e = ⟨col, none, .abs (.withAdded [("_facet", .s col)])⟩ ∧
      ∃ rows, env.exec (columnProbeSql env col) = .ok rows ∧
        rows.length ≠ 0 ∧ 1 < rows.length ∧ rows.length ≤ env.facetSize ∧
        rows.length < env.rowCount := by
  unfold columnSuggestFn
  by_cases hmem : col ∈ already
  · simp [hmem]
  · rw [if_neg hmem]
    cases hexec : env.exec (columnProbeSql env col) with
    | interrupted => simp [hmem]
    | opError => simp [hmem]
    | ok rows =>
      simp only []
      by_cases hcond : rows.length ≠ 0 ∧ 1 < rows.length ∧
          rows.length ≤ env.facetSize ∧ rows.length < env.rowCount
      · rw [if_pos hcond]
        simp only [Option.some.injEq, hmem, not_false_iff, true_and,
          ExecResult.ok.injEq]
        constructor
        · intro he
          exact ⟨he.symm, rows, rfl, hcond⟩
        · rintro ⟨he, _, _, _⟩
          exact he.symm
      · rw [if_neg hcond]
        simp only [hmem, not_false_iff, true_and, ExecResult.ok.injEq]
        constructor
        · intro h
          exact absurd h (by simp)
        · rintro ⟨_, rows', hrows', hc⟩
          cases hrows'
          exact absurd hc hcond

/-- A normally-returning run of the `ColumnFacet.suggest` loop produces
exactly the per-column map `columnSuggestFn` over the probed columns. -/
theorem columnSuggestLoop_eq_filterMap (env : FacetEnv) (already : List String)
    (cols : List String) (sugg : List Suggestion)
    (h : columnSuggestLoop env already cols = .ok sugg) :
    sugg = cols.filterMap (columnSuggestFn env already) := by
  induction cols generalizing sugg with
  | nil =>
    simp only [columnSuggestLoop, Except.ok.injEq] at h
    simp [← h]
  | cons col rest ih =>
    rw [List.filterMap_cons]
    simp only [columnSuggestLoop] at h
    unfold columnSuggestFn
    by_cases hmem : col ∈ already
    · rw [if_pos hmem] at h
      rw [if_pos hmem]
      exact ih sugg h
    · rw [if_neg hmem] at h
      rw [if_neg hmem]
      cases hexec : env.exec (columnProbeSql env col) with
      | interrupted =>
        rw [hexec] at h
        simp only [] at h
        simp only []
        exact ih sugg h
      | opError =>
        rw [hexec] at h
        simp only [] at h
        exact absurd h (by simp)
      | ok rows =>
        rw [hexec] at h
        simp only [] at h
        simp only []
        by_cases hcond : rows.length ≠ 0 ∧ 1 < rows.length ∧
            rows.length ≤ env.facetSize ∧ rows.length < env.rowCount
        · rw [if_pos hcond] at h
          rw [if_pos hcond]
          simp only []
          cases hrest : columnSuggestLoop env already rest with
          | error e =>
            rw [hrest] at h
            exact absurd h (by simp)
          | ok l =>
            rw [hrest] at h
            simp only [Except.ok.injEq] at h
            subst h
            rw [ih l hrest]
            rfl
        · rw [if_neg hcond] at h
          rw [if_neg hcond]
          simp only []
          exact ih sugg h

/-- C1: in a completed `ColumnFacet.suggest` run, an unconfigured column
`c` of the base query is proposed iff its distinct-value probe succeeded
within the suggestion time budget and the number `d` of distinct non-null
values satisfies `1 < d ≤ facet_size` and `d < row_count`.  (`d` enters
through the executor contract: the probe query is `select distinct ...
limit facet_size + 1`, so a successful probe returns
`min d (facet_size + 1)` rows.) -/
theorem c1_column_suggest_iff (env : FacetEnv) (sugg : List Suggestion)
    (c : String) (already : List String) (d : Nat)
    (ha : alreadyEnabled env.configs = .ok already)
    (hok : columnSuggest env = .ok sugg)
    (hc : c ∈ env.columns)
    (hnot : c ∉ already)
    (hd : ∀ rows, env.exec (columnProbeSql env c) = .ok rows →
      rows.length = min d (env.facetSize + 1)) :
    (∃ e ∈ sugg, e.name = c) ↔
      ((∃ rows, env.exec (columnProbeSql env c) = .ok rows) ∧
        1 < d ∧ d ≤ env.facetSize ∧ d < env.rowCount) := by
  have hloop : columnSuggestLoop env already env.columns = .ok sugg := by
    unfold columnSuggest at hok
    rw [ha] at hok
    exact hok
  have hsugg := columnSuggestLoop_eq_filterMap env already env.columns sugg hloop
  subst hsugg
  constructor
  · rintro ⟨e, he, hname⟩
    rw [List.mem_filterMap] at he
    obtain ⟨col, hcolmem, hfn⟩ := he
    rw [columnSuggestFn_eq_some] at hfn
    obtain ⟨hmem', heq, rows, hexec, hc0, hc1, hc2, hc3⟩ := hfn
    have hcc : col = c := by rw [heq] at hname; exact hname
    subst hcc
    have hlen := hd rows hexec
    exact ⟨⟨rows, hexec⟩, by omega, by omega, by omega⟩
  · rintro ⟨⟨rows, hexec⟩, h1, h2, h3⟩
    have hlen := hd rows hexec
    refine ⟨⟨c, none, .abs (.withAdded [("_facet", .s c)])⟩, ?_, rfl⟩
    rw [List.mem_filterMap]
    refine ⟨c, hc, ?_⟩
    rw [columnSuggestFn_eq_some]
    exact ⟨hnot, rfl, rows, hexec, by omega, by omega, by omega, by omega⟩

/-- Witness for C1: the spec's books/genre scenario (10 rows, 3 distinct
genres, display size 5) makes `ColumnFacet.suggest` propose `genre`. -/
theorem c1_witness :
    (∃ e ∈ [suggGenre], e.name = "genre") ↔
      ((∃ rows,
        envBooksSuggest.exec (columnProbeSql envBooksSuggest "genre") = .ok rows) ∧
        1 < 3 ∧ 3 ≤ envBooksSuggest.facetSize ∧ 3 < envBooksSuggest.rowCount) :=
  c1_column_suggest_iff envBooksSuggest [suggGenre] "genre" [] 3 rfl rfl
    (by simp [envBooksSuggest]) (by simp)
    (fun rows h => by
      have h' : ExecResult.ok [[.s "fiction"], [.s "bio"], [.s "poetry"]]
          = .ok rows := h
      cases h'
      rfl)

/-- Lookup after a Python dict assignment. -/
theorem alookup_dictAssign {α : Type} (m : List (String × α)) (k k' : String) (v : α) :
    alookup (dictAssign m k v) k' = if k' = k then some v else alookup m k' := by
  induction m with
  | nil => simp [dictAssign, alookup]
  | cons p rest ih =>
    obtain ⟨k0, v0⟩ := p
    by_cases h0 : k0 = k
    · subst h0
      simp only [dictAssign, if_pos rfl, alookup]
      by_cases h1 : k' = k0
      · simp [h1]
      · simp [h1]
    · simp only [dictAssign, if_neg h0, alookup, ih]
      by_cases h1 : k' = k0
      · simp [h1, h0]
      · simp [h1]

/-- Every column present in the result dict of a completed
`ColumnFacet.facet_results` run got there from a successful facet query,
shaped by `mkColumnInfo` (unless it was already in the accumulator). -/
theorem columnFacetResultsLoop_lookup (env : FacetEnv) (cfgs : List SourcedConfig)
    (acc : List (String × FacetInfo)) (timedOut : List String)
    (res : List (String × FacetInfo)) (tOut : List String) (c : String)
    (info : FacetInfo)
    (h : columnFacetResultsLoop env cfgs acc timedOut = .ok (res, tOut))
    (hl : alookup res c = some info) :
    alookup acc c = some info ∨
      ∃ src rows, env.exec (columnFacetSql env c) = .ok rows ∧
        info = mkColumnInfo env src c rows := by
  induction cfgs generalizing acc timedOut with
  | nil =>
    simp only [columnFacetResultsLoop, Except.ok.injEq, Prod.mk.injEq] at h
    rw [h.1]
    exact Or.inl hl
  | cons sc rest ih =>
    simp only [columnFacetResultsLoop] at h
    cases hres : resolveColumn sc.config with
    | error e =>
      rw [hres] at h
      simp only [] at h
      exact absurd h (by simp)
    | ok column =>
      rw [hres] at h
      simp only [] at h
      cases hexec : env.exec (columnFacetSql env column) with
      | interrupted =>
        rw [hexec] at h
        simp only [] at h
        exact ih _ _ h
      | opError =>
        rw [hexec] at h
        simp only [] at h
        exact absurd h (by simp)
      | ok rows =>
        rw [hexec] at h
        simp only [] at h
        rcases ih _ _ h with hacc | hnew
        · rw [alookup_dictAssign] at hacc
          by_cases hcc : c = column
          · subst hcc
            rw [if_pos rfl] at hacc
            simp only [Option.some.injEq] at hacc
            exact Or.inr ⟨sc.source, rows, hexec, hacc.symm⟩
          · rw [if_neg hcc] at hacc
            exact Or.inl hacc
        · exact Or.inr hnew

/-- C2: each facet in a completed `ColumnFacet.facet_results` run keeps at
most `facet_size` entries — exactly the first `facet_size` rows of the
count-descending query (which is limited to `facet_size + 1` rows) — and
its `truncated` flag is set iff the query returned `facet_size + 1` rows,
i.e. iff the number `d` of distinct values exceeds the display size. -/
theorem c2_column_facet_truncation (env : FacetEnv)
    (res : List (String × FacetInfo)) (tOut : List String)
    (c : String) (info : FacetInfo) (d : Nat)
    (h : columnFacetResults env = .ok (res, tOut))
    (hl : alookup res c = some info)
    (hd : ∀ rows, env.exec (columnFacetSql env c) = .ok rows →
      rows.length = min d (env.facetSize + 1)) :
    info.results.length ≤ env.facetSize ∧
    info.results.length = min d env.facetSize ∧
    (info.truncated = true ↔ env.facetSize < d) ∧
    ∃ rows, env.exec (columnFacetSql env c) = .ok rows ∧
      (info.truncated = true ↔ rows.length = env.facetSize + 1) ∧
      info.results.map Entry.value =
        (rows.take env.facetSize).map (fun r => r.getD 0 SVal.null) := by
  rcases columnFacetResultsLoop_lookup env env.configs [] [] res tOut c info h hl with
    hacc | ⟨src, rows, hexec, hinfo⟩
  · simp [alookup] at hacc
  · have hlen := hd rows hexec
    subst hinfo
    refine ⟨?_, ?_, ?_, rows, hexec, ?_, ?_⟩
    · simp only [mkColumnInfo, List.length_map, List.length_take]
      omega
    · simp only [mkColumnInfo, List.length_map, List.length_take]
      omega
    · simp only [mkColumnInfo, decide_eq_true_eq, gt_iff_lt]
      omega
    · simp only [mkColumnInfo, decide_eq_true_eq, gt_iff_lt]
      omega
    · simp only [mkColumnInfo, List.map_map]
      rfl

/-- Witness for C2: the books/genre scenario with 3 distinct genres and
display size 5 keeps all 3 entries and is not truncated. -/
theorem c2_witness :
    infoGenre.results.length ≤ envBooksResults.facetSize ∧
    infoGenre.results.length = min 3 envBooksResults.facetSize ∧
    (infoGenre.truncated = true ↔ envBooksResults.facetSize < 3) ∧
    ∃ rows, envBooksResults.exec (columnFacetSql envBooksResults "genre") = .ok rows ∧
      (infoGenre.truncated = true ↔ rows.length = envBooksResults.facetSize + 1) ∧
      infoGenre.results.map Entry.value =
        (rows.take envBooksResults.facetSize).map (fun r => r.getD 0 SVal.null) :=
  c2_column_facet_truncation envBooksResults [("genre", infoGenre)] [] "genre"
    infoGenre 3 rfl rfl
    (fun rows h => by
      have h' : ExecResult.ok [[.s "fiction", .i 5], [.s "bio", .i 3],
          [.s "poetry", .i 2]] = .ok rows := h
      cases h'
      rfl)

/-- C3: in a completed `ColumnFacet.facet_results` run, each entry is
selected iff the exact pair `(column, str(value))` occurs in the current
query-string pairs; a selected entry's toggle URL removes that pair and an
unselected entry's toggle URL adds it. -/
theorem c3_selected_iff_filter_pair (env : FacetEnv)
    (res : List (String × FacetInfo)) (tOut : List String)
    (c : String) (info : FacetInfo)
    (h : columnFacetResults env = .ok (res, tOut))
    (hl : alookup res c = some info) :
    ∀ e ∈ info.results,
      (e.selected = true ↔ (c, pyStr e.value) ∈ env.qsPairs) ∧
      e.toggleUrl = (if (c, pyStr e.value) ∈ env.qsPairs
        then UrlRef.abs (.withRemoved [(c, .s (pyStr e.value))])
        else UrlRef.abs (.withAdded [(c, e.value)])) := by
  rcases columnFacetResultsLoop_lookup env env.configs [] [] res tOut c info h hl with
    hacc | ⟨src, rows, hexec, hinfo⟩
  · simp [alookup] at hacc
  · subst hinfo
    intro e he
    simp only [mkColumnInfo, List.mem_map] at he
    obtain ⟨row, hrow, hrowe⟩ := he
    subst hrowe
    simp only [columnEntry]
    refine ⟨decide_eq_true_iff, ?_⟩
    split <;> rfl

/-- Witness for C3: with filter state `(genre, fiction)`, the `fiction`
entry is selected and its toggle URL removes the pair. -/
theorem c3_witness :
    ((columnEntry envBooksResults "genre" [.s "fiction", .i 5]).selected = true ↔
      ("genre", pyStr (columnEntry envBooksResults "genre" [.s "fiction", .i 5]).value)
        ∈ envBooksResults.qsPairs) ∧
    (columnEntry envBooksResults "genre" [.s "fiction", .i 5]).toggleUrl =
      (if ("genre", pyStr (columnEntry envBooksResults "genre" [.s "fiction", .i 5]).value)
          ∈ envBooksResults.qsPairs
        then UrlRef.abs (.withRemoved [("genre",
          .s (pyStr (columnEntry envBooksResults "genre" [.s "fiction", .i 5]).value))])
        else UrlRef.abs (.withAdded [("genre",
          (columnEntry envBooksResults "genre" [.s "fiction", .i 5]).value)])) :=
  c3_selected_iff_filter_pair envBooksResults [("genre", infoGenre)] [] "genre"
    infoGenre rfl rfl
    (columnEntry envBooksResults "genre" [.s "fiction", .i 5]) (by decide)

/-- Names once recorded as timed out stay in the timed-out list. -/
theorem columnFacetResultsLoop_timedOut_mono (env : FacetEnv)
    (cfgs : List SourcedConfig) (acc : List (String × FacetInfo))
    (timedOut : List String) (res : List (String × FacetInfo)) (tOut : List String)
    (h : columnFacetResultsLoop env cfgs acc timedOut = .ok (res, tOut)) :
    ∀ x ∈ timedOut, x ∈ tOut := by
  induction cfgs generalizing acc timedOut with
  | nil =>
    simp only [columnFacetResultsLoop, Except.ok.injEq, Prod.mk.injEq] at h
    rw [h.2]
    exact fun x hx => hx
  | cons sc rest ih =>
    simp only [columnFacetResultsLoop] at h
    cases hres : resolveColumn sc.config with
    | error e =>
      rw [hres] at h
      simp only [] at h
      exact absurd h (by simp)
    | ok column =>
      rw [hres] at h
      simp only [] at h
      cases hexec : env.exec (columnFacetSql env column) with
      | interrupted =>
        rw [hexec] at h
        simp only [] at h
        intro x hx
        exact ih _ _ h x (by simp [hx])
      | opError =>
        rw [hexec] at h
        simp only [] at h
        exact absurd h (by simp)
      | ok rows =>
        rw [hexec] at h
        simp only [] at h
        exact ih _ _ h

/-- In `ManyToManyFacet.facet_results`, names once recorded as timed out
stay in the timed-out list — unless a later config finds no junction table
and hits the early `return [], []` (facets.py lines 559-560), which
abandons every result and timeout gathered so far. -/
theorem m2mFacetResultsLoop_timedOut_mono (env : FacetEnv) (incoming : List FK)
    (table : String) (cfgs : List SourcedConfig) (acc : List (String × FacetInfo))
    (timedOut : List String) (res : List (String × FacetInfo)) (tOut : List String)
    (h : m2mFacetResultsLoop env incoming table cfgs acc timedOut = .ok (res, tOut)) :
    (∀ x ∈ timedOut, x ∈ tOut) ∨ (res = [] ∧ tOut = []) := by
  induction cfgs generalizing acc timedOut with
  | nil =>
    simp only [m2mFacetResultsLoop, Except.ok.injEq, Prod.mk.injEq] at h
    exact .inl (by rw [h.2]; exact fun x hx => hx)
  | cons sc rest ih =>
    simp only [m2mFacetResultsLoop] at h
    cases hres : resolveColumn sc.config with
    | error e =>
      rw [hres] at h
      simp only [] at h
      exact absurd h (by simp)
    | ok dest =>
      rw [hres] at h
      simp only [] at h
      cases hmid : m2mFindMiddle env dest incoming with
      | error e =>
        rw [hmid] at h
        simp only [] at h
        exact absurd h (by simp)
      | ok om =>
        rw [hmid] at h
        cases om with
        | none =>
          simp only [Except.ok.injEq, Prod.mk.injEq] at h
          exact .inr ⟨h.1.symm, h.2.symm⟩
        | some p =>
          obtain ⟨middle, fks⟩ := p
          simp only [] at h
          rcases hcols : m2mCols table dest fks (none, none, none) with ⟨ctt, tpk, ctd⟩
          rw [hcols] at h
          cases ctt with
          | none => simp only [] at h; exact absurd h (by simp)
          | some ctt =>
            cases tpk with
            | none => simp only [] at h; exact absurd h (by simp)
            | some tpk =>
              cases ctd with
              | none => simp only [] at h; exact absurd h (by simp)
              | some ctd =>
                simp only [] at h
                by_cases hcond : ctt ≠ "" ∧ tpk ≠ "" ∧ ctd ≠ ""
                · rw [if_pos hcond] at h
                  cases hexec : env.exec (m2mFacetSql env middle ctd ctt tpk) with
                  | interrupted =>
                    rw [hexec] at h
                    simp only [] at h
                    rcases ih _ _ h with hmem | hemp
                    · exact .inl fun x hx => hmem x (by simp [hx])
                    · exact .inr hemp
                  | opError =>
                    rw [hexec] at h
                    simp only [] at h
                    exact absurd h (by simp)
                  | ok rows =>
                    rw [hexec] at h
                    simp only [] at h
                    exact ih _ _ h
                · rw [if_neg hcond] at h
                  exact absurd h (by simp)

/-- C4 (counterexample): with `_facet=genre` configured, a non-timeout
query error makes `ColumnFacet.facet_results` raise
`sqlite3.OperationalError` — nothing is recorded in the timed-out list —
whereas the same run with a `QueryInterrupted` timeout returns normally
with `genre` recorded as timed out; likewise for
`ManyToManyFacet.facet_results` with `_facet_m2m=tags` configured over the
`books`/`book_tags`/`tags` junction.  At neither clause site are the two
error kinds handled identically. -/
theorem c4_counterexample :
    columnFacetResults envGenreOpError = .error .operationalError ∧
    columnFacetResults envGenreInterrupted = .ok ([], ["genre"]) ∧
    m2mFacetResults envM2MTagsOpError = .error .operationalError ∧
    m2mFacetResults envM2MTagsInterrupted = .ok ([], ["tags"]) :=
  ⟨rfl, rfl, rfl, rfl⟩

/-- C4 (amended): at both clause sites the claim cites —
`ColumnFacet.facet_results` (facets.py lines 251-252) and
`ManyToManyFacet.facet_results` (lines 662-663) — only `QueryInterrupted`
is caught: a timed-out facet is recorded in the timed-out list and the
remaining configs proceed, while any other query error propagates as an
exception and aborts the whole `facet_results` call.  (In the m2m case a
later config with no junction table can still abandon the whole run via
the early `return [], []`, hence the disjunct.) -/
theorem c4_amended_op_error_propagates :
    (∀ (env : FacetEnv) (sc : SourcedConfig) (rest : List SourcedConfig)
        (c : String), env.configs = sc :: rest → resolveColumn sc.config = .ok c →
      (env.exec (columnFacetSql env c) = .opError →
        columnFacetResults env = .error .operationalError) ∧
      (env.exec (columnFacetSql env c) = .interrupted →
        columnFacetResults env = columnFacetResultsLoop env rest [] [c] ∧
        ∀ res tOut, columnFacetResultsLoop env rest [] [c] = .ok (res, tOut) →
          c ∈ tOut)) ∧
    (∀ (env : FacetEnv) (table : String) (tf : TableFKs) (sc : SourcedConfig)
        (rest : List SourcedConfig) (dest middle : String) (fks : List FK)
        (ctt tpk ctd : String),
      env.table = some table → alookup env.graph table = some tf →
      env.configs = sc :: rest → resolveColumn sc.config = .ok dest →
      m2mFindMiddle env dest tf.incoming = .ok (some (middle, fks)) →
      m2mCols table dest fks (none, none, none) = (some ctt, some tpk, some ctd) →
      ctt ≠ "" → tpk ≠ "" → ctd ≠ "" →
      (env.exec (m2mFacetSql env middle ctd ctt tpk) = .opError →
        m2mFacetResults env = .error .operationalError) ∧
      (env.exec (m2mFacetSql env middle ctd ctt tpk) = .interrupted →
        m2mFacetResults env =
          m2mFacetResultsLoop env tf.incoming table rest [] [dest] ∧
        ∀ res tOut,
          m2mFacetResultsLoop env tf.incoming table rest [] [dest] =
            .ok (res, tOut) →
          dest ∈ tOut ∨ (res = [] ∧ tOut = []))) := by
  constructor
  · intro env sc rest c hcfg hres
    unfold columnFacetResults
    rw [hcfg]
    constructor
    · intro hexec
      simp only [columnFacetResultsLoop, hres, hexec]
    · intro hexec
      constructor
      · simp only [columnFacetResultsLoop, hres, hexec, List.nil_append]
      · intro res tOut h
        exact columnFacetResultsLoop_timedOut_mono env rest [] [c] res tOut h c
          (by simp)
  · intro env table tf sc rest dest middle fks ctt tpk ctd hm hg hcfg hres hmid
      hcols h1 h2 h3
    constructor
    · intro hexec
      simp only [m2mFacetResults, hm, hg, hcfg, m2mFacetResultsLoop, hres, hmid,
        hcols, hexec]
      rw [if_pos (show ctt ≠ "" ∧ tpk ≠ "" ∧ ctd ≠ "" from ⟨h1, h2, h3⟩)]
    · intro hexec
      constructor
      · simp only [m2mFacetResults, hm, hg, hcfg, m2mFacetResultsLoop, hres, hmid,
          hcols, hexec]
        rw [if_pos (show ctt ≠ "" ∧ tpk ≠ "" ∧ ctd ≠ "" from ⟨h1, h2, h3⟩)]
        simp only [List.nil_append]
      · intro res tOut h
        rcases m2mFacetResultsLoop_timedOut_mono env tf.incoming table rest []
          [dest] res tOut h with hmem | hemp
        · exact .inl (hmem dest (by simp))
        · exact .inr hemp

/-- Witness for C4's amended statement: both branches at both clause
sites, on concrete runs — `ColumnFacet` faceting `genre`, and
`ManyToManyFacet` faceting `tags` through the `book_tags` junction. -/
theorem c4_witness :
    columnFacetResults envGenreOpError = .error .operationalError ∧
    (columnFacetResults envGenreInterrupted =
        columnFacetResultsLoop envGenreInterrupted [] [] ["genre"] ∧
      ∀ res tOut,
        columnFacetResultsLoop envGenreInterrupted [] [] ["genre"] =
          .ok (res, tOut) → "genre" ∈ tOut) ∧
    m2mFacetResults envM2MTagsOpError = .error .operationalError ∧
    (m2mFacetResults envM2MTagsInterrupted =
        m2mFacetResultsLoop envM2MTagsInterrupted
          [⟨"book_tags", "book_id", "id"⟩] "books" [] [] ["tags"] ∧
      ∀ res tOut,
        m2mFacetResultsLoop envM2MTagsInterrupted
            [⟨"book_tags", "book_id", "id"⟩] "books" [] [] ["tags"] =
          .ok (res, tOut) →
        "tags" ∈ tOut ∨ (res = [] ∧ tOut = [])) := by
  refine ⟨?_, ?_, ?_, ?_⟩
  · exact (c4_amended_op_error_propagates.1 envGenreOpError
      ⟨"request", [("simple", "genre")]⟩ [] "genre" rfl rfl).1 rfl
  · exact (c4_amended_op_error_propagates.1 envGenreInterrupted
      ⟨"request", [("simple", "genre")]⟩ [] "genre" rfl rfl).2 rfl
  · exact (c4_amended_op_error_propagates.2 envM2MTagsOpError "books"
      ⟨[⟨"book_tags", "book_id", "id"⟩], []⟩ ⟨"request", [("simple", "tags")]⟩ []
      "tags" "book_tags" [⟨"books", "book_id", "id"⟩, ⟨"tags", "tag_id", "id"⟩]
      "book_id" "id" "tag_id" rfl rfl rfl rfl rfl rfl
      (by decide) (by decide) (by decide)).1 rfl
  · exact (c4_amended_op_error_propagates.2 envM2MTagsInterrupted "books"
      ⟨[⟨"book_tags", "book_id", "id"⟩], []⟩ ⟨"request", [("simple", "tags")]⟩ []
      "tags" "book_tags" [⟨"books", "book_id", "id"⟩, ⟨"tags", "tag_id", "id"⟩]
      "book_id" "id" "tag_id" rfl rfl rfl rfl rfl rfl
      (by decide) (by decide) (by decide)).2 rfl

/-- C5 (counterexample): a non-timeout probe failure on column `a` makes
`ColumnFacet.suggest` raise `sqlite3.OperationalError` — column `b` is
never suggested — whereas a timeout on `a` is swallowed and `b`'s probe
still proceeds.  The two are not handled identically in
`ColumnFacet.suggest`. -/
theorem c5_counterexample :
    columnSuggest envColSuggestOpError = .error .operationalError ∧
    columnSuggest envColSuggestTimeout = .ok [suggB] :=
  ⟨rfl, rfl⟩

/-- C5 (amended): `ArrayFacet.suggest` and `DateFacet.suggest` swallow a
non-timeout query failure identically to a timeout — the column is simply
not suggested and the remaining columns proceed — but `ColumnFacet.suggest`
catches only `QueryInterrupted`: any other failure propagates and aborts
suggestion for the remaining columns. -/
theorem c5_amended_probe_error_handling :
    (∀ (env : FacetEnv) (already : List String) (c : String) (rest : List String),
      alreadyEnabled env.configs = .ok already →
      env.columns = c :: rest →
      c ∉ already →
      env.exec (columnProbeSql env c) = .opError →
      columnSuggest env = .error .operationalError) ∧
    (∀ (env : FacetEnv) (already : List String) (c : String) (rest : List String),
      env.exec (arrayProbeSql env c) = .opError →
      arraySuggestLoop env already (c :: rest) = arraySuggestLoop env already rest) ∧
    (∀ (env : FacetEnv) (already : List String) (c : String) (rest : List String),
      env.exec (dateProbeSql env c) = .opError →
      dateSuggestLoop env already (c :: rest) = dateSuggestLoop env already rest) := by
  refine ⟨?_, ?_, ?_⟩
  · intro env already c rest ha hcols hnot hprobe
    unfold columnSuggest
    rw [ha, hcols]
    simp only [columnSuggestLoop]
    rw [if_neg hnot, hprobe]
  · intro env already c rest hprobe
    simp only [arraySuggestLoop]
    by_cases hmem : c ∈ already
    · rw [if_pos hmem]
    · rw [if_neg hmem, hprobe]
  · intro env already c rest hprobe
    simp only [dateSuggestLoop]
    by_cases hmem : c ∈ already
    · rw [if_pos hmem]
    · rw [if_neg hmem, hprobe]

/-- Witness for C5's amended statement: with every probe failing with a
non-timeout error, `ColumnFacet.suggest` aborts while the array and date
loops skip the failing column. -/
theorem c5_witness :
    columnSuggest envProbeOpError = .error .operationalError ∧
    arraySuggestLoop envProbeOpError [] ("a" :: ["b"]) =
      arraySuggestLoop envProbeOpError [] ["b"] ∧
    dateSuggestLoop envProbeOpError [] ("a" :: ["b"]) =
      dateSuggestLoop envProbeOpError [] ["b"] := by
  obtain ⟨h1, h2, h3⟩ := c5_amended_probe_error_handling
  exact ⟨h1 envProbeOpError [] "a" ["b"] rfl rfl (by simp) rfl,
    h2 envProbeOpError [] "a" ["b"] rfl,
    h3 envProbeOpError [] "a" ["b"] rfl⟩

/-- `arraySuggestFn` yields a suggestion exactly for unconfigured columns
whose probe succeeded with the kind tuple `("array",)` or
`("array", None)`. -/
theorem arraySuggestFn_eq_some (env : FacetEnv) (already : List String)
    (col : String) (e : Suggestion) :
    arraySuggestFn env already col = some e ↔
      col ∉ already ∧
      e = ⟨col, some "array", .abs (.withAdded [("_facet_array", .s col)])⟩ ∧
      ∃ rows, env.exec (arrayProbeSql env col) = .ok rows ∧
        (rows.map (fun r => r.getD 0 SVal.null) = [SVal.s "array"] ∨
         rows.map (fun r => r.getD 0 SVal.null) = [SVal.s "array", SVal.null]) := by
  unfold arraySuggestFn
  by_cases hmem : col ∈ already
  · simp [hmem]
  · rw [if_neg hmem]
    cases hexec : env.exec (arrayProbeSql env col) with
    | interrupted => simp [hmem]
    | opError => simp [hmem]
    | ok rows =>
      simp only []
      by_cases hcond : rows.map (fun r => r.getD 0 SVal.null) = [SVal.s "array"] ∨
          rows.map (fun r => r.getD 0 SVal.null) = [SVal.s "array", SVal.null]
      · rw [if_pos hcond]
        simp only [Option.some.injEq, hmem, not_false_iff, true_and,
          ExecResult.ok.injEq]
        constructor
        · intro he
          exact ⟨he.symm, rows, rfl, hcond⟩
        · rintro ⟨he, _, _, _⟩
          exact he.symm
      · rw [if_neg hcond]
        simp only [hmem, not_false_iff, true_and, ExecResult.ok.injEq]
        constructor
        · intro h
          exact absurd h (by simp)
        · rintro ⟨_, rows', hrows', hc⟩
          cases hrows'
          exact absurd hc hcond

/-- The `ArrayFacet.suggest` loop is the per-column map `arraySuggestFn`
over the probed columns. -/
theorem arraySuggestLoop_eq_filterMap (env : FacetEnv) (already : List String)
    (cols : List String) :
    arraySuggestLoop env already cols = cols.filterMap (arraySuggestFn env already) := by
  induction cols with
  | nil => rfl
  | cons col rest ih =>
    rw [List.filterMap_cons]
    simp only [arraySuggestLoop]
    unfold arraySuggestFn
    by_cases hmem : col ∈ already
    · simp only [if_pos hmem]
      exact ih
    · simp only [if_neg hmem]
      cases hexec : env.exec (arrayProbeSql env col) with
      | interrupted =>
        exact ih
      | opError =>
        exact ih
      | ok rows =>
        by_cases hcond : rows.map (fun r => r.getD 0 SVal.null) = [SVal.s "array"] ∨
            rows.map (fun r => r.getD 0 SVal.null) = [SVal.s "array", SVal.null]
        · simp only [if_pos hcond]
          rw [ih]
          rfl
        · simp only [if_neg hcond]
          exact ih

/-- C9 (counterexample): a probe returning the kind rows `(None, "array")`
— whose kind *set* is exactly `{array, null}` — does not get suggested by
`ArrayFacet.suggest`, because the code compares the ordered tuple against
`("array",)` and `("array", None)` only. -/
theorem c9_counterexample :
    ([SVal.null, SVal.s "array"] : List SVal).toFinset =
      ([SVal.s "array", SVal.null] : List SVal).toFinset ∧
    envKindsSwapped.exec (arrayProbeSql envKindsSwapped "tags") =
      .ok [[SVal.null], [SVal.s "array"]] ∧
    arraySuggest envKindsSwapped = .ok [] :=
  ⟨by decide, rfl, rfl⟩

/-- C9 (amended): `ArrayFacet.suggest` proposes an unfacetted column iff
its probe succeeds and the observed distinct JSON kinds, as the ordered
tuple returned by the query, are exactly `("array",)` or
`("array", None)`. -/
theorem c9_amended_array_suggest_iff (env : FacetEnv) (sugg : List Suggestion)
    (c : String) (already : List String)
    (ha : alreadyEnabled env.configs = .ok already)
    (hok : arraySuggest env = .ok sugg)
    (hc : c ∈ env.columns) (hnot : c ∉ already) :
    (∃ e ∈ sugg, e.name = c) ↔
      ∃ rows, env.exec (arrayProbeSql env c) = .ok rows ∧
        (rows.map (fun r => r.getD 0 SVal.null) = [SVal.s "array"] ∨
         rows.map (fun r => r.getD 0 SVal.null) = [SVal.s "array", SVal.null]) := by
  have hsugg : sugg = env.columns.filterMap (arraySuggestFn env already) := by
    unfold arraySuggest at hok
    rw [ha] at hok
    simp only [Except.ok.injEq] at hok
    rw [← hok, arraySuggestLoop_eq_filterMap]
  subst hsugg
  constructor
  · rintro ⟨e, he, hname⟩
    rw [List.mem_filterMap] at he
    obtain ⟨col, hcolmem, hfn⟩ := he
    rw [arraySuggestFn_eq_some] at hfn
    obtain ⟨hmem', heq, rows, hexec, hkinds⟩ := hfn
    have hcc : col = c := by rw [heq] at hname; exact hname
    subst hcc
    exact ⟨rows, hexec, hkinds⟩
  · rintro ⟨rows, hexec, hkinds⟩
    refine ⟨⟨c, some "array", .abs (.withAdded [("_facet_array", .s c)])⟩, ?_, rfl⟩
    rw [List.mem_filterMap]
    exact ⟨c, hc,
      (arraySuggestFn_eq_some env already c _).mpr ⟨hnot, rfl, rows, hexec, hkinds⟩⟩

/-- Witness for C9's amended statement: the kinds tuple `("array", None)`
does get `tags` suggested. -/
theorem c9_witness :
    (∃ e ∈ [suggTags], e.name = "tags") ↔
      ∃ rows, envKindsProper.exec (arrayProbeSql envKindsProper "tags") = .ok rows ∧
        (rows.map (fun r => r.getD 0 SVal.null) = [SVal.s "array"] ∨
         rows.map (fun r => r.getD 0 SVal.null) = [SVal.s "array", SVal.null]) :=
  c9_amended_array_suggest_iff envKindsProper _ "tags" [] rfl rfl (by decide) (by simp)

/-- On a foreign-key graph where every junction candidate (exactly two
outgoing edges) has exactly one edge to the base table and one to another
table, the suggestion loop returns exactly the claim's description. -/
theorem m2mSuggestLoop_eq_claim (env : FacetEnv) (t : String) (inc : List FK)
    (hcons : ∀ fk ∈ inc, ∃ o, alookup env.graph fk.other_table = some o ∧
      (o.outgoing.length = 2 →
        (∃ e ∈ o.outgoing, e.other_table = t) ∧
        (∃ e ∈ o.outgoing, e.other_table ≠ t))) :
    m2mSuggestLoop env t inc = .ok (m2mSuggestClaim env t inc) := by
  induction inc with
  | nil => rfl
  | cons fk rest ih =>
    have hrest := ih (fun fk' h' => hcons fk' (List.mem_cons_of_mem _ h'))
    obtain ⟨o, ho, hcond⟩ := hcons fk (List.mem_cons_self _ _)
    simp only [m2mSuggestLoop, m2mSuggestClaim, List.filterMap_cons]
    rw [ho]
    simp only []
    by_cases h2 : o.outgoing.length = 2
    · rw [if_pos h2]
      obtain ⟨⟨eb, hebm, hebt⟩, ⟨en, henm, hent⟩⟩ := hcond h2
      obtain ⟨e1, e2, houtg⟩ := List.length_eq_two.mp h2
      rw [houtg] at hebm henm
      simp only [List.mem_cons, List.not_mem_nil, or_false] at hebm henm
      rw [houtg]
      by_cases h1t : e1.other_table = t
      · by_cases h2t : e2.other_table = t
        · exfalso
          rcases henm with rfl | rfl
          · exact hent h1t
          · exact hent h2t
        · have hfil : List.filter (fun e => decide (e.other_table ≠ t)) [e1, e2]
              = [e2] := by
            simp [List.filter, h1t, h2t]
          rw [hfil]
          simp only []
          rw [if_pos (show e1.other_table = t ∧ e2.other_table ≠ t from ⟨h1t, h2t⟩)]
          by_cases hqs : ("_facet_m2m", e2.other_table) ∈ env.qsPairs
          · rw [if_pos hqs, if_pos hqs]
            exact hrest
          · rw [if_neg hqs, if_neg hqs, hrest]
            rfl
      · have h2t : e2.other_table = t := by
          rcases hebm with rfl | rfl
          · exact absurd hebt h1t
          · exact hebt
        have hfil : List.filter (fun e => decide (e.other_table ≠ t)) [e1, e2]
            = [e1] := by
          simp [List.filter, h1t, h2t]
        rw [hfil]
        simp only []
        rw [if_neg (show ¬(e1.other_table = t ∧ e2.other_table ≠ t) from
          fun hc => h1t hc.1)]
        rw [if_pos (show e2.other_table = t ∧ e1.other_table ≠ t from ⟨h2t, h1t⟩)]
        by_cases hqs : ("_facet_m2m", e1.other_table) ∈ env.qsPairs
        · rw [if_pos hqs, if_pos hqs]
          exact hrest
        · rw [if_neg hqs, if_neg hqs, hrest]
          rfl
    · rw [if_neg h2]
      rcases houtg : o.outgoing with _ | ⟨a, _ | ⟨b, _ | ⟨d, l⟩⟩⟩
      · exact hrest
      · exact hrest
      · exact absurd (by rw [houtg]; rfl) h2
      · exact hrest

/-- C7: on a consistent foreign-key graph (every incoming edge of the base
table is recorded in the graph, and every junction candidate with exactly
two outgoing edges has one edge to the base table and one to a different
table), `ManyToManyFacet.suggest` proposes exactly the other edge's target
for each junction candidate, skipping targets already configured through
`("_facet_m2m", destination)`; candidates without exactly two outgoing
edges are skipped, and a base table without foreign-key entries yields no
suggestions. -/
theorem c7_m2m_suggest_junctions (env : FacetEnv) (t : String) (tf : TableFKs)
    (ht : env.table = some t)
    (hcons : ∀ fk ∈ tf.incoming, ∃ o, alookup env.graph fk.other_table = some o ∧
      (o.outgoing.length = 2 →
        (∃ e ∈ o.outgoing, e.other_table = t) ∧
        (∃ e ∈ o.outgoing, e.other_table ≠ t))) :
    (alookup env.graph t = some tf →
      m2mSuggest env = .ok (m2mSuggestClaim env t tf.incoming)) ∧
    (alookup env.graph t = none → m2mSuggest env = .ok []) := by
  constructor
  · intro hg
    unfold m2mSuggest
    rw [ht]
    simp only []
    rw [hg]
    simp only []
    exact m2mSuggestLoop_eq_claim env t tf.incoming hcons
  · intro hg
    unfold m2mSuggest
    rw [ht]
    simp only []
    rw [hg]

/-- Witness for C7: the books/book_tags/tags junction scenario, where the
suggestion is `tags`. -/
theorem c7_witness :
    ((alookup envM2MBooks.graph "books" =
        some ⟨[⟨"book_tags", "book_id", "id"⟩], []⟩ →
      m2mSuggest envM2MBooks =
        .ok (m2mSuggestClaim envM2MBooks "books" [⟨"book_tags", "book_id", "id"⟩])) ∧
     (alookup envM2MBooks.graph "books" = none →
      m2mSuggest envM2MBooks = .ok [])) ∧
    m2mSuggestClaim envM2MBooks "books" [⟨"book_tags", "book_id", "id"⟩] =
      [{ name := "tags", stype := some "m2m",
         toggleUrl := .abs (.withAdded [("_facet_m2m", .s "tags")]) }] := by
  constructor
  · refine c7_m2m_suggest_junctions envM2MBooks "books"
      ⟨[⟨"book_tags", "book_id", "id"⟩], []⟩ rfl ?_
    intro fk hfk
    simp only [List.mem_singleton] at hfk
    subst hfk
    refine ⟨⟨[], [⟨"books", "book_id", "id"⟩, ⟨"tags", "tag_id", "id"⟩]⟩, rfl, ?_⟩
    intro _
    constructor
    · exact ⟨⟨"books", "book_id", "id"⟩, by simp, rfl⟩
    · exact ⟨⟨"tags", "tag_id", "id"⟩, by simp, by decide⟩
  · rfl

theorem decodeEscF_unicode (fl : Nat) (a b c2 d : Char) (l : List Char) (n : Nat)
    (hv : hex4Val a b c2 d = some n) (hn : n < 0xd800 ∨ 0xdfff < n) :
    decodeEscF (fl + 1) ('\\' :: 'u' :: a :: b :: c2 :: d :: l) =
      (decodeEscF fl l).map (fun s => Char.ofNat n :: s) := by
  simp only [decodeEscF, if_true]
  rw [hv]
  simp only []
  rw [if_pos hn]

theorem decodeEscF_surrogate (fl : Nat) (a b c2 d e f g h : Char) (l : List Char)
    (n m : Nat)
    (hv1 : hex4Val a b c2 d = some n) (hn : 0xd800 ≤ n ∧ n ≤ 0xdbff)
    (hv2 : hex4Val e f g h = some m) (hm : 0xdc00 ≤ m ∧ m ≤ 0xdfff) :
    decodeEscF (fl + 1) ('\\' :: 'u' :: a :: b :: c2 :: d :: '\\' :: 'u' :: e ::
        f :: g :: h :: l) =
      (decodeEscF fl l).map (fun s =>
        Char.ofNat (0x10000 + (n - 0xd800) * 0x400 + (m - 0xdc00)) :: s) := by
  simp only [decodeEscF, if_true]
  rw [hv1]
  try simp only []
  rw [if_neg (show ¬(n < 0xd800 ∨ 0xdfff < n) by omega)]
  try simp only []
  rw [if_pos (show n ≤ 0xdbff by omega)]
  try simp only []
  rw [hv2]
  try simp only []
  rw [if_pos hm]

theorem hexVal_hexDigitChar (d : Nat) (h : d < 16) :
    hexVal (hexDigitChar d) = some d := by
  interval_cases d <;> rfl

theorem hex4Val_hex4 (n : Nat) (h : n < 0x10000) :
    hex4Val (hexDigitChar (n / 4096 % 16)) (hexDigitChar (n / 256 % 16))
      (hexDigitChar (n / 16 % 16)) (hexDigitChar (n % 16)) = some n := by
  unfold hex4Val
  rw [hexVal_hexDigitChar _ (Nat.mod_lt _ (by norm_num)),
    hexVal_hexDigitChar _ (Nat.mod_lt _ (by norm_num)),
    hexVal_hexDigitChar _ (Nat.mod_lt _ (by norm_num)),
    hexVal_hexDigitChar _ (Nat.mod_lt _ (by norm_num))]
  simp only [Option.some.injEq]
  omega

theorem hexDigitChar_ne (d : Nat) (h : d < 16) :
    hexDigitChar d ≠ '"' ∧ hexDigitChar d ≠ '\\' := by
  interval_cases d <;> exact ⟨by decide, by decide⟩

theorem char_toNat_valid (c : Char) :
    c.toNat < 0xd800 ∨ (0xdfff < c.toNat ∧ c.toNat < 0x110000) := by
  rcases c.valid with h | ⟨h1, h2⟩
  · left
    exact_mod_cast h
  · right
    exact ⟨by exact_mod_cast h1, by exact_mod_cast h2⟩

theorem decodeEscF_escapeChar (fl : Nat) (c : Char) (l : List Char) :
    decodeEscF (fl + 1) (escapeChar c ++ l) =
      (decodeEscF fl l).map (fun s => c :: s) := by
  by_cases h1 : c = '"'
  · subst h1; rfl
  by_cases h2 : c = '\\'
  · subst h2; rfl
  by_cases h3 : c = '\n'
  · subst h3; rfl
  by_cases h4 : c = '\r'
  · subst h4; rfl
  by_cases h5 : c = '\t'
  · subst h5; rfl
  by_cases h6 : c = '\x08'
  · subst h6; rfl
  by_cases h7 : c = '\x0c'
  · subst h7; rfl
  have hesc : escapeChar c =
      (if 0x20 ≤ c.toNat ∧ c.toNat ≤ 0x7e then [c]
       else if c.toNat < 0x10000 then '\\' :: 'u' :: hex4 c.toNat
       else ('\\' :: 'u' :: hex4 (0xd800 + (c.toNat - 0x10000) / 0x400)) ++
            ('\\' :: 'u' :: hex4 (0xdc00 + (c.toNat - 0x10000) % 0x400))) := by
    unfold escapeChar
    rw [if_neg h1, if_neg h2, if_neg h3, if_neg h4, if_neg h5, if_neg h6,
      if_neg h7]
  rw [hesc]
  by_cases h8 : 0x20 ≤ c.toNat ∧ c.toNat ≤ 0x7e
  · rw [if_pos h8, List.singleton_append]
    simp only [decodeEscF]
    rw [if_neg h2]
  rw [if_neg h8]
  by_cases h9 : c.toNat < 0x10000
  · rw [if_pos h9]
    simp only [hex4, List.cons_append, List.nil_append]
    rw [decodeEscF_unicode _ _ _ _ _ _ _ (hex4Val_hex4 _ h9)
      (by rcases char_toNat_valid c with h | ⟨ha, _⟩
          · left; exact h
          · right; exact ha)]
    simp only [Char.ofNat_toNat]
  · rw [if_neg h9]
    have hval := char_toNat_valid c
    have hlt : c.toNat < 0x110000 := by omega
    have hhi : 0xd800 + (c.toNat - 0x10000) / 0x400 < 0x10000 := by omega
    have hlo : 0xdc00 + (c.toNat - 0x10000) % 0x400 < 0x10000 := by omega
    simp only [hex4, List.cons_append, List.nil_append]
    rw [decodeEscF_surrogate _ _ _ _ _ _ _ _ _ _ _ _ (hex4Val_hex4 _ hhi)
      (by omega) (hex4Val_hex4 _ hlo) (by omega)]
    have harith : 0x10000 + (0xd800 + (c.toNat - 0x10000) / 0x400 - 0xd800) * 0x400 +
        (0xdc00 + (c.toNat - 0x10000) % 0x400 - 0xdc00) = c.toNat := by
      omega
    simp only [harith, Char.ofNat_toNat]

theorem decodeEscF_escapeStr (s : List Char) :
    ∀ fl : Nat, s.length ≤ fl → decodeEscF fl (escapeStr s) = some s := by
  induction s with
  | nil =>
    intro fl _
    cases fl <;> rfl
  | cons c cs ih =>
    intro fl hfl
    match fl, hfl with
    | fl + 1, hfl =>
      show decodeEscF (fl + 1) (escapeChar c ++ escapeStr cs) = _
      rw [decodeEscF_escapeChar, ih fl (by simpa using hfl)]
      rfl

theorem escapeChar_length_pos (c : Char) : 1 ≤ (escapeChar c).length := by
  unfold escapeChar
  repeat' split
  all_goals simp [hex4]

theorem escapeStr_length (s : List Char) : s.length ≤ (escapeStr s).length := by
  induction s with
  | nil => simp [escapeStr]
  | cons c cs ih =>
    simp only [escapeStr, List.length_cons, List.length_append]
    have := escapeChar_length_pos c
    omega

theorem decodeEsc_escapeStr (s : List Char) : decodeEsc (escapeStr s) = some s := by
  unfold decodeEsc
  exact decodeEscF_escapeStr s _ (escapeStr_length s)

theorem splitJsonStr_quote (l : List Char) :
    splitJsonStr ('"' :: l) = some ([], l) := by
  conv_lhs => rw [splitJsonStr.eq_def]
  simp

theorem splitJsonStr_plain (c : Char) (l : List Char)
    (h1 : c ≠ '"') (h2 : c ≠ '\\') :
    splitJsonStr (c :: l) = (splitJsonStr l).map (fun p => (c :: p.1, p.2)) := by
  conv_lhs => rw [splitJsonStr.eq_def]
  simp only []
  rw [if_neg h1, if_neg h2]
  rcases splitJsonStr l with _ | ⟨x, y⟩ <;> rfl

theorem splitJsonStr_esc (k : Char) (l : List Char) :
    splitJsonStr ('\\' :: k :: l) =
      (splitJsonStr l).map (fun p => ('\\' :: k :: p.1, p.2)) := by
  conv_lhs => rw [splitJsonStr.eq_def]
  simp only []
  rw [if_neg (show ('\\' : Char) ≠ '"' by decide)]
  simp only [if_true]
  rcases splitJsonStr l with _ | ⟨x, y⟩ <;> rfl

theorem splitJsonStr_escapeChar (c : Char) (x a b : List Char)
    (hx : splitJsonStr x = some (a, b)) :
    splitJsonStr (escapeChar c ++ x) = some (escapeChar c ++ a, b) := by
  by_cases h1 : c = '"'
  · subst h1
    rw [show escapeChar '"' = ['\\', '"'] from rfl]
    simp only [List.cons_append, List.nil_append]
    rw [splitJsonStr_esc, hx]
    rfl
  by_cases h2 : c = '\\'
  · subst h2
    rw [show escapeChar '\\' = ['\\', '\\'] from rfl]
    simp only [List.cons_append, List.nil_append]
    rw [splitJsonStr_esc, hx]
    rfl
  by_cases h3 : c = '\n'
  · subst h3
    rw [show escapeChar '\n' = ['\\', 'n'] from rfl]
    simp only [List.cons_append, List.nil_append]
    rw [splitJsonStr_esc, hx]
    rfl
  by_cases h4 : c = '\r'
  · subst h4
    rw [show escapeChar '\r' = ['\\', 'r'] from rfl]
    simp only [List.cons_append, List.nil_append]
    rw [splitJsonStr_esc, hx]
    rfl
  by_cases h5 : c = '\t'
  · subst h5
    rw [show escapeChar '\t' = ['\\', 't'] from rfl]
    simp only [List.cons_append, List.nil_append]
    rw [splitJsonStr_esc, hx]
    rfl
  by_cases h6 : c = '\x08'
  · subst h6
    rw [show escapeChar '\x08' = ['\\', 'b'] from rfl]
    simp only [List.cons_append, List.nil_append]
    rw [splitJsonStr_esc, hx]
    rfl
  by_cases h7 : c = '\x0c'
  · subst h7
    rw [show escapeChar '\x0c' = ['\\', 'f'] from rfl]
    simp only [List.cons_append, List.nil_append]
    rw [splitJsonStr_esc, hx]
    rfl
  have hesc : escapeChar c =
      (if 0x20 ≤ c.toNat ∧ c.toNat ≤ 0x7e then [c]
       else if c.toNat < 0x10000 then '\\' :: 'u' :: hex4 c.toNat
       else ('\\' :: 'u' :: hex4 (0xd800 + (c.toNat - 0x10000) / 0x400)) ++
            ('\\' :: 'u' :: hex4 (0xdc00 + (c.toNat - 0x10000) % 0x400))) := by
    unfold escapeChar
    rw [if_neg h1, if_neg h2, if_neg h3, if_neg h4, if_neg h5, if_neg h6,
      if_neg h7]
  rw [hesc]
  by_cases h8 : 0x20 ≤ c.toNat ∧ c.toNat ≤ 0x7e
  · rw [if_pos h8, List.singleton_append, splitJsonStr_plain c _ h1 h2, hx]
    rfl
  rw [if_neg h8]
  by_cases h9 : c.toNat < 0x10000
  · rw [if_pos h9]
    simp only [hex4, List.cons_append, List.nil_append]
    rw [splitJsonStr_esc,
      splitJsonStr_plain _ _ (hexDigitChar_ne _ (Nat.mod_lt _ (by norm_num))).1
        (hexDigitChar_ne _ (Nat.mod_lt _ (by norm_num))).2,
      splitJsonStr_plain _ _ (hexDigitChar_ne _ (Nat.mod_lt _ (by norm_num))).1
        (hexDigitChar_ne _ (Nat.mod_lt _ (by norm_num))).2,
      splitJsonStr_plain _ _ (hexDigitChar_ne _ (Nat.mod_lt _ (by norm_num))).1
        (hexDigitChar_ne _ (Nat.mod_lt _ (by norm_num))).2,
      splitJsonStr_plain _ _ (hexDigitChar_ne _ (Nat.mod_lt _ (by norm_num))).1
        (hexDigitChar_ne _ (Nat.mod_lt _ (by norm_num))).2,
      hx]
    rfl
  · rw [if_neg h9]
    simp only [hex4, List.cons_append, List.nil_append]
    rw [splitJsonStr_esc,
      splitJsonStr_plain _ _ (hexDigitChar_ne _ (Nat.mod_lt _ (by norm_num))).1
        (hexDigitChar_ne _ (Nat.mod_lt _ (by norm_num))).2,
      splitJsonStr_plain _ _ (hexDigitChar_ne _ (Nat.mod_lt _ (by norm_num))).1
        (hexDigitChar_ne _ (Nat.mod_lt _ (by norm_num))).2,
      splitJsonStr_plain _ _ (hexDigitChar_ne _ (Nat.mod_lt _ (by norm_num))).1
        (hexDigitChar_ne _ (Nat.mod_lt _ (by norm_num))).2,
      splitJsonStr_plain _ _ (hexDigitChar_ne _ (Nat.mod_lt _ (by norm_num))).1
        (hexDigitChar_ne _ (Nat.mod_lt _ (by norm_num))).2,
      splitJsonStr_esc,
      splitJsonStr_plain _ _ (hexDigitChar_ne _ (Nat.mod_lt _ (by norm_num))).1
        (hexDigitChar_ne _ (Nat.mod_lt _ (by norm_num))).2,
      splitJsonStr_plain _ _ (hexDigitChar_ne _ (Nat.mod_lt _ (by norm_num))).1
        (hexDigitChar_ne _ (Nat.mod_lt _ (by norm_num))).2,
      splitJsonStr_plain _ _ (hexDigitChar_ne _ (Nat.mod_lt _ (by norm_num))).1
        (hexDigitChar_ne _ (Nat.mod_lt _ (by norm_num))).2,
      splitJsonStr_plain _ _ (hexDigitChar_ne _ (Nat.mod_lt _ (by norm_num))).1
        (hexDigitChar_ne _ (Nat.mod_lt _ (by norm_num))).2,
      hx]
    rfl

theorem splitJsonStr_escapeStr (s l : List Char) :
    splitJsonStr (escapeStr s ++ '"' :: l) = some (escapeStr s, l) := by
  induction s with
  | nil =>
    simp only [escapeStr, List.nil_append]
    exact splitJsonStr_quote l
  | cons c cs ih =>
    simp only [escapeStr, List.append_assoc]
    rw [splitJsonStr_escapeChar c _ _ _ ih]

theorem readJsonStr_escape (s l : List Char) :
    readJsonStr (escapeStr s ++ '"' :: l) = some (s, l) := by
  unfold readJsonStr
  rw [splitJsonStr_escapeStr]
  simp only []
  rw [decodeEsc_escapeStr]

theorem expects_append (p l : List Char) : expects p (p ++ l) = some l := by
  induction p with
  | nil => rfl
  | cons c cs ih => simp [expects, ih]

theorem parseThrough_serializeThrough (t c v : String) :
    parseThrough (serializeThrough t c v) = some (t, c, v) := by
  unfold parseThrough serializeThrough
  simp only []
  rw [expects_append]
  simp only []
  rw [readJsonStr_escape]
  simp only []
  rw [expects_append]
  simp only []
  rw [readJsonStr_escape]
  simp only []
  rw [expects_append]
  simp only []
  rw [readJsonStr_escape]
  simp only [if_true]


/-- C8: the `_through` selection token round-trips — serializing a
`(table, column, value)` triple with sorted keys and no extra whitespace
and parsing it back yields the same triple — and serialization is
injective, so triples differing in any component (in particular in
`value`) never collide. -/
theorem c8_through_token_roundtrip :
    (∀ t c v : String, parseThrough (serializeThrough t c v) = some (t, c, v)) ∧
    (∀ t1 c1 v1 t2 c2 v2 : String,
      serializeThrough t1 c1 v1 = serializeThrough t2 c2 v2 →
      t1 = t2 ∧ c1 = c2 ∧ v1 = v2) := by
  refine ⟨parseThrough_serializeThrough, ?_⟩
  intro t1 c1 v1 t2 c2 v2 h
  have h2 := congrArg parseThrough h
  rw [parseThrough_serializeThrough, parseThrough_serializeThrough] at h2
  simp only [Option.some.injEq, Prod.mk.injEq] at h2
  exact ⟨h2.1, h2.2.1, h2.2.2⟩

/-- Witness for C8 at the triple `("book_tags", "tag_id", "1")`, whose
token is the expected sorted-key, whitespace-free JSON text. -/
theorem c8_witness :
    parseThrough (serializeThrough "book_tags" "tag_id" "1") =
      some ("book_tags", "tag_id", "1") ∧
    ("book_tags" = "book_tags" ∧ "tag_id" = "tag_id" ∧ ("1" : String) = "1") ∧
    serializeThrough "book_tags" "tag_id" "1" =
      "\x7b\"column\":\"tag_id\",\"table\":\"book_tags\",\"value\":\"1\"\x7d" :=
  ⟨c8_through_token_roundtrip.1 "book_tags" "tag_id" "1",
   c8_through_token_roundtrip.2 "book_tags" "tag_id" "1" "book_tags" "tag_id" "1"
     rfl,
   by decide⟩

end Facets
